import Mathlib

/-!
Verification of the madNES emulator core against its specification.

This file gives a shallow embedding, in Lean 4, of the parts of the madNES
source that the specification's claims are about:

* the 6502 CPU interpreter (`src/cpu/core.rs`, `src/cpu/instructions.rs`,
  `src/cpu/memory.rs`, `src/cpu/flags.rs`, `src/utils/bit_utils.rs`),
* the memory bus (`NesMemory` in `src/cpu/memory.rs`),
* the orchestrator loop (`Emulator::run` / `Emulator::update` in
  `src/emulator/core.rs`),
* the iNES parser and ROM container (`src/rom/ines.rs`, `src/rom/core.rs`),
* the mappers (`src/mappers/mapper000.rs`, `src/mappers/mapper001.rs`,
  `src/mappers/mod.rs`),
* the PPU and its palette (`src/ppu/ppu.rs`, `src/ppu/palette.rs`),
* the APU noise channel (`src/apu/channels.rs`).

Machine integers (u8/u16/u32) are modelled as `Nat` with explicit masking
(`% 256`, `% 65536`, `&&&`) at the points where the Rust types truncate.
Where the Rust source performs a plain `+` on a machine integer we model the
release-mode wrapping semantics (`% 2^w`).  Arrays are modelled as total
functions `Nat → Nat`; byte reads truncate with `% 256`, matching the `u8`
element type.  Fallible Rust functions returning `Result` are modelled with
`Except`.
-/

/-- Sign extension of an `i8` byte reinterpreted as `u16`
(the Rust expression `offset as i8 as u16` for a byte `offset`). -/
def signExt8 (b : Nat) : Nat :=
  if b < 0x80 then b else 0xFF00 + b

/-- `bit_utils::page_crossed` from `src/utils/bit_utils.rs`:
two addresses are on different 256-byte pages. -/
def page_crossed (addr1 addr2 : Nat) : Bool :=
  decide ((addr1 &&& 0xFF00) ≠ (addr2 &&& 0xFF00))

/-- `AddressingMode` from `src/cpu/memory.rs`, together with the two extra
variants (`Indirect`, `Relative`) that `src/cpu/instructions.rs` and
`src/cpu/core.rs` use. -/
inductive AddressingMode where
  | none
  | immediate
  | implied
  | indirectX
  | indirectY
  | zeroPage
  | zeroPageX
  | zeroPageY
  | absolute
  | absoluteX
  | absoluteY
  | indirect
  | relative
deriving DecidableEq

/-- `Instruction` from `src/cpu/instructions.rs`. -/
structure Instruction where
  mnemonic : String
  opcode : Nat
  addressing_mode : AddressingMode
  cycles : Nat
  bytes : Nat
deriving DecidableEq

set_option maxRecDepth 4096 in
/-- `get_instruction` from `src/cpu/instructions.rs`: lookup in the constant
256-entry `INSTRUCTION_TABLE`; `Option.none` for opcodes the table leaves empty. -/
def get_instruction (opcode : Nat) : Option Instruction :=
  if opcode = 0xA9 then some ⟨"LDA", 0xA9, AddressingMode.immediate, 2, 2⟩
  else if opcode = 0xA5 then some ⟨"LDA", 0xA5, AddressingMode.zeroPage, 3, 2⟩
  else if opcode = 0xB5 then some ⟨"LDA", 0xB5, AddressingMode.zeroPageX, 4, 2⟩
  else if opcode = 0xAD then some ⟨"LDA", 0xAD, AddressingMode.absolute, 4, 3⟩
  else if opcode = 0xBD then some ⟨"LDA", 0xBD, AddressingMode.absoluteX, 4, 3⟩
  else if opcode = 0xB9 then some ⟨"LDA", 0xB9, AddressingMode.absoluteY, 4, 3⟩
  else if opcode = 0xA1 then some ⟨"LDA", 0xA1, AddressingMode.indirectX, 6, 2⟩
  else if opcode = 0xB1 then some ⟨"LDA", 0xB1, AddressingMode.indirectY, 5, 2⟩
  else if opcode = 0xA2 then some ⟨"LDX", 0xA2, AddressingMode.immediate, 2, 2⟩
  else if opcode = 0xA6 then some ⟨"LDX", 0xA6, AddressingMode.zeroPage, 3, 2⟩
  else if opcode = 0xB6 then some ⟨"LDX", 0xB6, AddressingMode.zeroPageY, 4, 2⟩
  else if opcode = 0xAE then some ⟨"LDX", 0xAE, AddressingMode.absolute, 4, 3⟩
  else if opcode = 0xBE then some ⟨"LDX", 0xBE, AddressingMode.absoluteY, 4, 3⟩
  else if opcode = 0xA0 then some ⟨"LDY", 0xA0, AddressingMode.immediate, 2, 2⟩
  else if opcode = 0xA4 then some ⟨"LDY", 0xA4, AddressingMode.zeroPage, 3, 2⟩
  else if opcode = 0xB4 then some ⟨"LDY", 0xB4, AddressingMode.zeroPageX, 4, 2⟩
  else if opcode = 0xAC then some ⟨"LDY", 0xAC, AddressingMode.absolute, 4, 3⟩
  else if opcode = 0xBC then some ⟨"LDY", 0xBC, AddressingMode.absoluteX, 4, 3⟩
  else if opcode = 0x85 then some ⟨"STA", 0x85, AddressingMode.zeroPage, 3, 2⟩
  else if opcode = 0x8D then some ⟨"STA", 0x8D, AddressingMode.absolute, 4, 3⟩
  else if opcode = 0x9D then some ⟨"STA", 0x9D, AddressingMode.absoluteX, 5, 3⟩
  else if opcode = 0x99 then some ⟨"STA", 0x99, AddressingMode.absoluteY, 5, 3⟩
  else if opcode = 0x81 then some ⟨"STA", 0x81, AddressingMode.indirectX, 6, 2⟩
  else if opcode = 0x91 then some ⟨"STA", 0x91, AddressingMode.indirectY, 6, 2⟩
  else if opcode = 0x95 then some ⟨"STA", 0x95, AddressingMode.zeroPageX, 4, 2⟩
  else if opcode = 0x86 then some ⟨"STX", 0x86, AddressingMode.zeroPage, 3, 2⟩
  else if opcode = 0x96 then some ⟨"STX", 0x96, AddressingMode.zeroPageY, 4, 2⟩
  else if opcode = 0x8E then some ⟨"STX", 0x8E, AddressingMode.absolute, 4, 3⟩
  else if opcode = 0x84 then some ⟨"STY", 0x84, AddressingMode.zeroPage, 3, 2⟩
  else if opcode = 0x94 then some ⟨"STY", 0x94, AddressingMode.zeroPageX, 4, 2⟩
  else if opcode = 0x8C then some ⟨"STY", 0x8C, AddressingMode.absolute, 4, 3⟩
  else if opcode = 0xAA then some ⟨"TAX", 0xAA, AddressingMode.implied, 2, 1⟩
  else if opcode = 0xA8 then some ⟨"TAY", 0xA8, AddressingMode.implied, 2, 1⟩
  else if opcode = 0xBA then some ⟨"TSX", 0xBA, AddressingMode.implied, 2, 1⟩
  else if opcode = 0x8A then some ⟨"TXA", 0x8A, AddressingMode.implied, 2, 1⟩
  else if opcode = 0x98 then some ⟨"TYA", 0x98, AddressingMode.implied, 2, 1⟩
  else if opcode = 0x9A then some ⟨"TXS", 0x9A, AddressingMode.implied, 2, 1⟩
  else if opcode = 0x48 then some ⟨"PHA", 0x48, AddressingMode.implied, 3, 1⟩
  else if opcode = 0x08 then some ⟨"PHP", 0x08, AddressingMode.implied, 3, 1⟩
  else if opcode = 0x68 then some ⟨"PLA", 0x68, AddressingMode.implied, 4, 1⟩
  else if opcode = 0x28 then some ⟨"PLP", 0x28, AddressingMode.implied, 4, 1⟩
  else if opcode = 0xC6 then some ⟨"DEC", 0xC6, AddressingMode.zeroPage, 5, 2⟩
  else if opcode = 0xD6 then some ⟨"DEC", 0xD6, AddressingMode.zeroPageX, 6, 2⟩
  else if opcode = 0xCE then some ⟨"DEC", 0xCE, AddressingMode.absolute, 6, 3⟩
  else if opcode = 0xDE then some ⟨"DEC", 0xDE, AddressingMode.absoluteX, 7, 3⟩
  else if opcode = 0xCA then some ⟨"DEX", 0xCA, AddressingMode.implied, 2, 1⟩
  else if opcode = 0x88 then some ⟨"DEY", 0x88, AddressingMode.implied, 2, 1⟩
  else if opcode = 0xE6 then some ⟨"INC", 0xE6, AddressingMode.zeroPage, 5, 2⟩
  else if opcode = 0xF6 then some ⟨"INC", 0xF6, AddressingMode.zeroPageX, 6, 2⟩
  else if opcode = 0xEE then some ⟨"INC", 0xEE, AddressingMode.absolute, 6, 3⟩
  else if opcode = 0xFE then some ⟨"INC", 0xFE, AddressingMode.absoluteX, 7, 3⟩
  else if opcode = 0xE8 then some ⟨"INX", 0xE8, AddressingMode.implied, 2, 1⟩
  else if opcode = 0xC8 then some ⟨"INY", 0xC8, AddressingMode.implied, 2, 1⟩
  else if opcode = 0x69 then some ⟨"ADC", 0x69, AddressingMode.immediate, 2, 2⟩
  else if opcode = 0x65 then some ⟨"ADC", 0x65, AddressingMode.zeroPage, 3, 2⟩
  else if opcode = 0x75 then some ⟨"ADC", 0x75, AddressingMode.zeroPageX, 4, 2⟩
  else if opcode = 0x6D then some ⟨"ADC", 0x6D, AddressingMode.absolute, 4, 3⟩
  else if opcode = 0x7D then some ⟨"ADC", 0x7D, AddressingMode.absoluteX, 4, 3⟩
  else if opcode = 0x79 then some ⟨"ADC", 0x79, AddressingMode.absoluteY, 4, 3⟩
  else if opcode = 0x61 then some ⟨"ADC", 0x61, AddressingMode.indirectX, 6, 2⟩
  else if opcode = 0x71 then some ⟨"ADC", 0x71, AddressingMode.indirectY, 5, 2⟩
  else if opcode = 0xE9 then some ⟨"SBC", 0xE9, AddressingMode.immediate, 2, 2⟩
  else if opcode = 0xE5 then some ⟨"SBC", 0xE5, AddressingMode.zeroPage, 3, 2⟩
  else if opcode = 0xF5 then some ⟨"SBC", 0xF5, AddressingMode.zeroPageX, 4, 2⟩
  else if opcode = 0xED then some ⟨"SBC", 0xED, AddressingMode.absolute, 4, 3⟩
  else if opcode = 0xFD then some ⟨"SBC", 0xFD, AddressingMode.absoluteX, 4, 3⟩
  else if opcode = 0xF9 then some ⟨"SBC", 0xF9, AddressingMode.absoluteY, 4, 3⟩
  else if opcode = 0xE1 then some ⟨"SBC", 0xE1, AddressingMode.indirectX, 6, 2⟩
  else if opcode = 0xF1 then some ⟨"SBC", 0xF1, AddressingMode.indirectY, 5, 2⟩
  else if opcode = 0x29 then some ⟨"AND", 0x29, AddressingMode.immediate, 2, 2⟩
  else if opcode = 0x25 then some ⟨"AND", 0x25, AddressingMode.zeroPage, 3, 2⟩
  else if opcode = 0x35 then some ⟨"AND", 0x35, AddressingMode.zeroPageX, 4, 2⟩
  else if opcode = 0x2D then some ⟨"AND", 0x2D, AddressingMode.absolute, 4, 3⟩
  else if opcode = 0x3D then some ⟨"AND", 0x3D, AddressingMode.absoluteX, 4, 3⟩
  else if opcode = 0x39 then some ⟨"AND", 0x39, AddressingMode.absoluteY, 4, 3⟩
  else if opcode = 0x21 then some ⟨"AND", 0x21, AddressingMode.indirectX, 6, 2⟩
  else if opcode = 0x31 then some ⟨"AND", 0x31, AddressingMode.indirectY, 5, 2⟩
  else if opcode = 0x49 then some ⟨"EOR", 0x49, AddressingMode.immediate, 2, 2⟩
  else if opcode = 0x45 then some ⟨"EOR", 0x45, AddressingMode.zeroPage, 3, 2⟩
  else if opcode = 0x55 then some ⟨"EOR", 0x55, AddressingMode.zeroPageX, 4, 2⟩
  else if opcode = 0x4D then some ⟨"EOR", 0x4D, AddressingMode.absolute, 4, 3⟩
  else if opcode = 0x5D then some ⟨"EOR", 0x5D, AddressingMode.absoluteX, 4, 3⟩
  else if opcode = 0x59 then some ⟨"EOR", 0x59, AddressingMode.absoluteY, 4, 3⟩
  else if opcode = 0x41 then some ⟨"EOR", 0x41, AddressingMode.indirectX, 6, 2⟩
  else if opcode = 0x51 then some ⟨"EOR", 0x51, AddressingMode.indirectY, 5, 2⟩
  else if opcode = 0x09 then some ⟨"ORA", 0x09, AddressingMode.immediate, 2, 2⟩
  else if opcode = 0x05 then some ⟨"ORA", 0x05, AddressingMode.zeroPage, 3, 2⟩
  else if opcode = 0x15 then some ⟨"ORA", 0x15, AddressingMode.zeroPageX, 4, 2⟩
  else if opcode = 0x0D then some ⟨"ORA", 0x0D, AddressingMode.absolute, 4, 3⟩
  else if opcode = 0x1D then some ⟨"ORA", 0x1D, AddressingMode.absoluteX, 4, 3⟩
  else if opcode = 0x19 then some ⟨"ORA", 0x19, AddressingMode.absoluteY, 4, 3⟩
  else if opcode = 0x01 then some ⟨"ORA", 0x01, AddressingMode.indirectX, 6, 2⟩
  else if opcode = 0x11 then some ⟨"ORA", 0x11, AddressingMode.indirectY, 5, 2⟩
  else if opcode = 0x0A then some ⟨"ASL", 0x0A, AddressingMode.implied, 2, 1⟩
  else if opcode = 0x06 then some ⟨"ASL", 0x06, AddressingMode.zeroPage, 5, 2⟩
  else if opcode = 0x16 then some ⟨"ASL", 0x16, AddressingMode.zeroPageX, 6, 2⟩
  else if opcode = 0x0E then some ⟨"ASL", 0x0E, AddressingMode.absolute, 6, 3⟩
  else if opcode = 0x1E then some ⟨"ASL", 0x1E, AddressingMode.absoluteX, 7, 3⟩
  else if opcode = 0x4A then some ⟨"LSR", 0x4A, AddressingMode.implied, 2, 1⟩
  else if opcode = 0x46 then some ⟨"LSR", 0x46, AddressingMode.zeroPage, 5, 2⟩
  else if opcode = 0x56 then some ⟨"LSR", 0x56, AddressingMode.zeroPageX, 6, 2⟩
  else if opcode = 0x4E then some ⟨"LSR", 0x4E, AddressingMode.absolute, 6, 3⟩
  else if opcode = 0x5E then some ⟨"LSR", 0x5E, AddressingMode.absoluteX, 7, 3⟩
  else if opcode = 0x2A then some ⟨"ROL", 0x2A, AddressingMode.implied, 2, 1⟩
  else if opcode = 0x26 then some ⟨"ROL", 0x26, AddressingMode.zeroPage, 5, 2⟩
  else if opcode = 0x36 then some ⟨"ROL", 0x36, AddressingMode.zeroPageX, 6, 2⟩
  else if opcode = 0x2E then some ⟨"ROL", 0x2E, AddressingMode.absolute, 6, 3⟩
  else if opcode = 0x3E then some ⟨"ROL", 0x3E, AddressingMode.absoluteX, 7, 3⟩
  else if opcode = 0x6A then some ⟨"ROR", 0x6A, AddressingMode.implied, 2, 1⟩
  else if opcode = 0x66 then some ⟨"ROR", 0x66, AddressingMode.zeroPage, 5, 2⟩
  else if opcode = 0x76 then some ⟨"ROR", 0x76, AddressingMode.zeroPageX, 6, 2⟩
  else if opcode = 0x6E then some ⟨"ROR", 0x6E, AddressingMode.absolute, 6, 3⟩
  else if opcode = 0x7E then some ⟨"ROR", 0x7E, AddressingMode.absoluteX, 7, 3⟩
  else if opcode = 0x18 then some ⟨"CLC", 0x18, AddressingMode.implied, 2, 1⟩
  else if opcode = 0xD8 then some ⟨"CLD", 0xD8, AddressingMode.implied, 2, 1⟩
  else if opcode = 0x58 then some ⟨"CLI", 0x58, AddressingMode.implied, 2, 1⟩
  else if opcode = 0xB8 then some ⟨"CLV", 0xB8, AddressingMode.implied, 2, 1⟩
  else if opcode = 0x38 then some ⟨"SEC", 0x38, AddressingMode.implied, 2, 1⟩
  else if opcode = 0xF8 then some ⟨"SED", 0xF8, AddressingMode.implied, 2, 1⟩
  else if opcode = 0x78 then some ⟨"SEI", 0x78, AddressingMode.implied, 2, 1⟩
  else if opcode = 0xC9 then some ⟨"CMP", 0xC9, AddressingMode.immediate, 2, 2⟩
  else if opcode = 0xC5 then some ⟨"CMP", 0xC5, AddressingMode.zeroPage, 3, 2⟩
  else if opcode = 0xD5 then some ⟨"CMP", 0xD5, AddressingMode.zeroPageX, 4, 2⟩
  else if opcode = 0xCD then some ⟨"CMP", 0xCD, AddressingMode.absolute, 4, 3⟩
  else if opcode = 0xDD then some ⟨"CMP", 0xDD, AddressingMode.absoluteX, 4, 3⟩
  else if opcode = 0xD9 then some ⟨"CMP", 0xD9, AddressingMode.absoluteY, 4, 3⟩
  else if opcode = 0xC1 then some ⟨"CMP", 0xC1, AddressingMode.indirectX, 6, 2⟩
  else if opcode = 0xD1 then some ⟨"CMP", 0xD1, AddressingMode.indirectY, 5, 2⟩
  else if opcode = 0xE0 then some ⟨"CPX", 0xE0, AddressingMode.immediate, 2, 2⟩
  else if opcode = 0xE4 then some ⟨"CPX", 0xE4, AddressingMode.zeroPage, 3, 2⟩
  else if opcode = 0xEC then some ⟨"CPX", 0xEC, AddressingMode.absolute, 4, 3⟩
  else if opcode = 0xC0 then some ⟨"CPY", 0xC0, AddressingMode.immediate, 2, 2⟩
  else if opcode = 0xC4 then some ⟨"CPY", 0xC4, AddressingMode.zeroPage, 3, 2⟩
  else if opcode = 0xCC then some ⟨"CPY", 0xCC, AddressingMode.absolute, 4, 3⟩
  else if opcode = 0x90 then some ⟨"BCC", 0x90, AddressingMode.relative, 2, 2⟩
  else if opcode = 0xB0 then some ⟨"BCS", 0xB0, AddressingMode.relative, 2, 2⟩
  else if opcode = 0xF0 then some ⟨"BEQ", 0xF0, AddressingMode.relative, 2, 2⟩
  else if opcode = 0x30 then some ⟨"BMI", 0x30, AddressingMode.relative, 2, 2⟩
  else if opcode = 0xD0 then some ⟨"BNE", 0xD0, AddressingMode.relative, 2, 2⟩
  else if opcode = 0x10 then some ⟨"BPL", 0x10, AddressingMode.relative, 2, 2⟩
  else if opcode = 0x50 then some ⟨"BVC", 0x50, AddressingMode.relative, 2, 2⟩
  else if opcode = 0x70 then some ⟨"BVS", 0x70, AddressingMode.relative, 2, 2⟩
  else if opcode = 0x4C then some ⟨"JMP", 0x4C, AddressingMode.absolute, 3, 3⟩
  else if opcode = 0x6C then some ⟨"JMP", 0x6C, AddressingMode.indirect, 5, 3⟩
  else if opcode = 0x20 then some ⟨"JSR", 0x20, AddressingMode.absolute, 6, 3⟩
  else if opcode = 0x60 then some ⟨"RTS", 0x60, AddressingMode.implied, 6, 1⟩
  else if opcode = 0x00 then some ⟨"BRK", 0x00, AddressingMode.implied, 7, 1⟩
  else if opcode = 0x40 then some ⟨"RTI", 0x40, AddressingMode.implied, 6, 1⟩
  else if opcode = 0x2C then some ⟨"BIT", 0x2C, AddressingMode.absolute, 4, 3⟩
  else if opcode = 0x24 then some ⟨"BIT", 0x24, AddressingMode.zeroPage, 3, 2⟩
  else if opcode = 0xEA then some ⟨"NOP", 0xEA, AddressingMode.implied, 2, 1⟩
  else Option.none

/-- `CpuError` from `src/error.rs` (the variants the embedded code constructs). -/
inductive CpuError where
  | unknownOpcode (opcode : Nat) (pc : Nat)
  | invalidProgramCounter (pc : Nat)
  | stackOverflow
  | stackUnderflow
  | invalidInstruction (address : Nat) (reason : String)
  | executionHalted (reason : String)
deriving DecidableEq

/-- `MemoryError` from `src/error.rs`. -/
inductive MemoryError where
  | outOfBounds (address : Nat) (size : Nat)
  | invalidRegion (address : Nat)
  | romNotLoaded
  | initializationFailed (reason : String)
deriving DecidableEq

/-- `RomError` from `src/error.rs`. -/
inductive RomError where
  | invalidHeader (reason : String)
  | fileTooSmall (expected : Nat) (actual : Nat)
  | unsupportedMapper (mapper : Nat)
  | corruptedData (reason : String)
  | missingData (data : String)
  | ioFailure (reason : String)
deriving DecidableEq

/-- `MirrorMode` from `src/rom/core.rs`. -/
inductive MirrorMode where
  | horizontal
  | vertical
  | fourScreen
deriving DecidableEq

/-- `Rom` from `src/rom/core.rs`.  ROM bytes are `Nat` lists whose elements
are bytes (`< 256`); reads through the memory bus truncate with `% 256`. -/
structure Rom where
  prg_rom : List Nat
  chr_rom : List Nat
  mirror_mode : MirrorMode
  mapper : Nat
  prg_ram_size : Nat
deriving DecidableEq

/-- `InesHeader` from `src/rom/ines.rs`. -/
structure InesHeader where
  prg_rom_size : Nat
  chr_rom_size : Nat
  flags6 : Nat
  flags7 : Nat
  prg_ram_size : Nat
  flags9 : Nat
  flags10 : Nat
  padding : List Nat
deriving DecidableEq

/-- `InesHeader::parse` from `src/rom/ines.rs`: size check, `NES\x1A`
signature check, then field extraction from the 16 header bytes. -/
def InesHeader.parse (data : List Nat) : Except RomError InesHeader :=
  if data.length < 16 then
    Except.error (RomError.fileTooSmall 16 data.length)
  else if data.take 4 ≠ [0x4E, 0x45, 0x53, 0x1A] then
    Except.error (RomError.invalidHeader "Missing or invalid iNES header signature")
  else
    Except.ok
      { prg_rom_size := data.getD 4 0
        chr_rom_size := data.getD 5 0
        flags6 := data.getD 6 0
        flags7 := data.getD 7 0
        prg_ram_size := data.getD 8 0
        flags9 := data.getD 9 0
        flags10 := data.getD 10 0
        padding := [data.getD 11 0, data.getD 12 0, data.getD 13 0, data.getD 14 0, data.getD 15 0] }

/-- `InesHeader::get_mapper_number`: high nibble from flags7, low nibble from flags6. -/
def InesHeader.get_mapper_number (h : InesHeader) : Nat :=
  (h.flags7 &&& 0xF0) ||| (h.flags6 >>> 4)

/-- `InesHeader::get_mirror_mode`. -/
def InesHeader.get_mirror_mode (h : InesHeader) : MirrorMode :=
  if h.flags6 &&& 0x08 ≠ 0 then MirrorMode.fourScreen
  else if h.flags6 &&& 0x01 ≠ 0 then MirrorMode.vertical
  else MirrorMode.horizontal

/-- `InesHeader::has_trainer`. -/
def InesHeader.has_trainer (h : InesHeader) : Bool :=
  decide ((h.flags6 &&& 0x04) ≠ 0)

/-- `InesHeader::get_prg_rom_size_bytes`. -/
def InesHeader.get_prg_rom_size_bytes (h : InesHeader) : Nat :=
  h.prg_rom_size * 16 * 1024

/-- `InesHeader::get_chr_rom_size_bytes`. -/
def InesHeader.get_chr_rom_size_bytes (h : InesHeader) : Nat :=
  h.chr_rom_size * 8 * 1024

/-- `InesHeader::get_prg_ram_size_bytes`. -/
def InesHeader.get_prg_ram_size_bytes (h : InesHeader) : Nat :=
  if h.prg_ram_size = 0 then 8 * 1024 else h.prg_ram_size * 8 * 1024

/-- `InesHeader::get_trainer_size`. -/
def InesHeader.get_trainer_size (h : InesHeader) : Nat :=
  if h.has_trainer then 512 else 0

/-- `Rom::new` from `src/rom/core.rs`: parse the header, validate the total
file size and the PRG size, then slice out PRG and CHR ROM (absent CHR ROM
becomes 8 KiB of zeroed CHR RAM).  Note: no check of the mapper number is
performed anywhere in this function. -/
def Rom.new (rom_data : List Nat) : Except RomError Rom :=
  match InesHeader.parse rom_data with
  | Except.error e => Except.error e
  | Except.ok header =>
    let prg_rom_size := header.get_prg_rom_size_bytes
    let chr_rom_size := header.get_chr_rom_size_bytes
    let trainer_size := header.get_trainer_size
    let prg_rom_start := 16 + trainer_size
    let chr_rom_start := prg_rom_start + prg_rom_size
    let expected_size := chr_rom_start + chr_rom_size
    if rom_data.length < expected_size then
      Except.error (RomError.fileTooSmall expected_size rom_data.length)
    else if prg_rom_size = 0 then
      Except.error (RomError.missingData "PRG ROM")
    else
      let prg_rom := (rom_data.drop prg_rom_start).take prg_rom_size
      let chr_rom :=
        if chr_rom_size > 0 then (rom_data.drop chr_rom_start).take chr_rom_size
        else List.replicate (8 * 1024) 0
      Except.ok
        { prg_rom := prg_rom
          chr_rom := chr_rom
          mirror_mode := header.get_mirror_mode
          mapper := header.get_mapper_number
          prg_ram_size := header.get_prg_ram_size_bytes }

/-- `Mapper000` from `src/mappers/mapper000.rs`. -/
structure Mapper000 where
  prg_banks : Nat
  chr_banks : Nat
  mirror_mode : MirrorMode
deriving DecidableEq

/-- `Mapper000::new`. -/
def Mapper000.new (prg_banks chr_banks : Nat) : Mapper000 :=
  { prg_banks := prg_banks, chr_banks := chr_banks, mirror_mode := MirrorMode.horizontal }

/-- `Mapper001` from `src/mappers/mapper001.rs` (MMC1). -/
structure Mapper001 where
  prg_banks : Nat
  chr_banks : Nat
  mirror_mode : MirrorMode
  shift_register : Nat
  shift_count : Nat
  control_register : Nat
  chr_bank_0 : Nat
  chr_bank_1 : Nat
  prg_bank : Nat
  prg_ram_enabled : Bool
deriving DecidableEq

/-- `Mapper001::new`. -/
def Mapper001.new (prg_banks chr_banks : Nat) : Mapper001 :=
  { prg_banks := prg_banks
    chr_banks := chr_banks
    mirror_mode := MirrorMode.horizontal
    shift_register := 0
    shift_count := 0
    control_register := 0x0C
    chr_bank_0 := 0
    chr_bank_1 := 0
    prg_bank := 0
    prg_ram_enabled := true }

/-- `Mapper001::write_register`: a write with bit 7 set resets the shift
register and ORs `0x0C` into control; otherwise bit 0 of the value is
shifted into bit 4 of the 5-bit shift register, and the fifth such write
commits the accumulated value to the register selected by the address.
The Rust function returns `MemoryResult<()>` but never errors, so the
embedding returns the updated mapper directly. -/
def Mapper001.write_register (m : Mapper001) (address value : Nat) : Mapper001 :=
  if value &&& 0x80 ≠ 0 then
    { m with shift_register := 0, shift_count := 0,
             control_register := m.control_register ||| 0x0C }
  else
    let sr := (m.shift_register >>> 1) ||| ((value &&& 0x01) <<< 4)
    let sc := m.shift_count + 1
    if sc = 5 then
      let m1 :=
        if 0x8000 ≤ address ∧ address ≤ 0x9FFF then
          { m with control_register := sr
                   mirror_mode :=
                     if sr &&& 0x03 = 0 then MirrorMode.horizontal
                     else if sr &&& 0x03 = 1 then MirrorMode.horizontal
                     else if sr &&& 0x03 = 2 then MirrorMode.vertical
                     else MirrorMode.horizontal }
        else if 0xA000 ≤ address ∧ address ≤ 0xBFFF then
          { m with chr_bank_0 := sr }
        else if 0xC000 ≤ address ∧ address ≤ 0xDFFF then
          { m with chr_bank_1 := sr }
        else if 0xE000 ≤ address ∧ address ≤ 0xFFFF then
          { m with prg_bank := sr &&& 0x0F,
                   prg_ram_enabled := decide (sr &&& 0x10 = 0) }
        else m
      { m1 with shift_register := 0, shift_count := 0 }
    else
      { m with shift_register := sr, shift_count := sc }

/-- `Mapper001::map_prg_read`: PRG-RAM window at `0x6000–0x7FFF`, then the
banked ROM window per the PRG mode in bits 2–3 of the control register.
The `u16` bank arithmetic wraps (`% 65536`, release-mode Rust semantics);
the Rust function wraps the result in `Ok` unconditionally, so the
embedding returns the `Option` directly. -/
def Mapper001.map_prg_read (m : Mapper001) (address : Nat) : Option Nat :=
  if 0x6000 ≤ address ∧ address ≤ 0x7FFF then
    if m.prg_ram_enabled then some (address - 0x6000) else Option.none
  else if 0x8000 ≤ address ∧ address ≤ 0xFFFF then
    let prg_mode := (m.control_register >>> 2) &&& 0x03
    let bank_size := 0x4000
    if prg_mode = 0 ∨ prg_mode = 1 then
      let bank := (m.prg_bank &&& 0x0E) >>> 1
      some (((address - 0x8000) + bank * bank_size) % 65536)
    else if prg_mode = 2 then
      if address < 0xC000 then some (address - 0x8000)
      else some (((address - 0xC000) + m.prg_bank * bank_size) % 65536)
    else
      if address < 0xC000 then
        some (((address - 0x8000) + m.prg_bank * bank_size) % 65536)
      else
        let last_bank := m.prg_banks - 1
        some (((address - 0xC000) + last_bank * bank_size) % 65536)
  else
    Option.none

/-- `create_mapper` returns one of the two concrete mapper types. -/
inductive CreatedMapper where
  | m000 (m : Mapper000)
  | m001 (m : Mapper001)
deriving DecidableEq

/-- `create_mapper` from `src/mappers/mod.rs`: mapper 0 and 1 get their own
implementation; every other mapper number falls back to NROM (`Mapper000`)
after printing a warning — no error is raised. -/
def create_mapper (mapper_number prg_banks chr_banks : Nat) : CreatedMapper :=
  if mapper_number = 0 then CreatedMapper.m000 (Mapper000.new prg_banks chr_banks)
  else if mapper_number = 1 then CreatedMapper.m001 (Mapper001.new prg_banks chr_banks)
  else CreatedMapper.m000 (Mapper000.new prg_banks chr_banks)

/-- `NesMemory` from `src/cpu/memory.rs`.  The byte arrays are modelled as
total functions from index to stored byte. -/
structure NesMemory where
  internal_ram : Nat → Nat
  ppu_registers : Nat → Nat
  apu_io_registers : Nat → Nat
  rom : Option Rom
  prg_ram : Nat → Nat

/-- `NesMemory::new`: zeroed arrays, no ROM. -/
def NesMemory.new : NesMemory :=
  { internal_ram := fun _ => 0
    ppu_registers := fun _ => 0
    apu_io_registers := fun _ => 0
    rom := Option.none
    prg_ram := fun _ => 0 }

/-- `NesMemory::read_byte` from `src/cpu/memory.rs`: RAM mirrored with mask
`0x07FF`, PPU registers mirrored with mask `0x0007`, APU/IO registers at
`0x4000–0x4017`, the `0x4018–0x401F` arm indexing `apu_io_registers` at
`address - 0x4018`, PRG RAM, then PRG ROM with 16 KiB mirroring; everything
else reads 0.  Results are truncated to a byte. -/
def NesMemory.read_byte (m : NesMemory) (address : Nat) : Nat :=
  if address ≤ 0x1FFF then
    m.internal_ram (address &&& 0x07FF) % 256
  else if address ≤ 0x3FFF then
    m.ppu_registers (address &&& 0x0007) % 256
  else if address ≤ 0x4017 then
    m.apu_io_registers (address - 0x4000) % 256
  else if address ≤ 0x401F then
    let offset := address - 0x4018
    if offset < 0x20 then m.apu_io_registers offset % 256 else 0
  else if 0x6000 ≤ address ∧ address ≤ 0x7FFF then
    m.prg_ram (address - 0x6000) % 256
  else if 0x8000 ≤ address ∧ address ≤ 0xFFFF then
    let offset := address - 0x8000
    match m.rom with
    | some rom =>
      if offset < rom.prg_rom.length then rom.prg_rom.getD offset 0 % 256
      else if rom.prg_rom.length = 0x4000 ∧ 0x4000 ≤ offset then
        rom.prg_rom.getD (offset - 0x4000) 0 % 256
      else 0
    | Option.none => 0
  else 0

/-- `NesMemory::write_byte` from `src/cpu/memory.rs`: same routing as
`read_byte`; PRG-ROM writes and unmapped writes are dropped.  Stored values
are truncated to a byte. -/
def NesMemory.write_byte (m : NesMemory) (address value : Nat) : NesMemory :=
  if address ≤ 0x1FFF then
    let idx := address &&& 0x07FF
    { m with internal_ram := fun i => if i = idx then value % 256 else m.internal_ram i }
  else if address ≤ 0x3FFF then
    let idx := address &&& 0x0007
    { m with ppu_registers := fun i => if i = idx then value % 256 else m.ppu_registers i }
  else if address ≤ 0x4017 then
    let idx := address - 0x4000
    { m with apu_io_registers := fun i => if i = idx then value % 256 else m.apu_io_registers i }
  else if address ≤ 0x401F then
    let idx := address - 0x4018
    if idx < 0x20 then
      { m with apu_io_registers := fun i => if i = idx then value % 256 else m.apu_io_registers i }
    else m
  else if 0x6000 ≤ address ∧ address ≤ 0x7FFF then
    let idx := address - 0x6000
    { m with prg_ram := fun i => if i = idx then value % 256 else m.prg_ram i }
  else m

/-- Status-flag bit masks from `src/cpu/flags.rs` (`StatusFlag`). -/
def StatusFlag.carry : Nat := 1 <<< 0

/-- `StatusFlag::Zero`. -/
def StatusFlag.zero : Nat := 1 <<< 1

/-- `StatusFlag::InterruptDisable`. -/
def StatusFlag.interruptDisable : Nat := 1 <<< 2

/-- `StatusFlag::Decimal`. -/
def StatusFlag.decimal : Nat := 1 <<< 3

/-- `StatusFlag::Break`. -/
def StatusFlag.break_ : Nat := 1 <<< 4

/-- `StatusFlag::Unused`. -/
def StatusFlag.unused : Nat := 1 <<< 5

/-- `StatusFlag::Overflow`. -/
def StatusFlag.overflow : Nat := 1 <<< 6

/-- `StatusFlag::Negative`. -/
def StatusFlag.negative : Nat := 1 <<< 7

/-- `Cpu` from `src/cpu/core.rs`: register file, status byte `p`, the memory
bus, and the cycle / instruction counters. -/
structure Cpu where
  a : Nat
  x : Nat
  y : Nat
  pc : Nat
  sp : Nat
  p : Nat
  memory : NesMemory
  cycles : Nat
  instruction_count : Nat

/-- `Cpu::default` / `Cpu::new`. -/
def Cpu.new : Cpu :=
  { a := 0, x := 0, y := 0, pc := 0, sp := 0xFD, p := 0,
    memory := NesMemory.new, cycles := 0, instruction_count := 0 }

/-- `Cpu::read_byte` (the `Memory` impl forwards to `NesMemory`). -/
def Cpu.read_byte (cpu : Cpu) (address : Nat) : Nat :=
  cpu.memory.read_byte address

/-- `Cpu::write_byte`. -/
def Cpu.write_byte (cpu : Cpu) (address value : Nat) : Cpu :=
  { cpu with memory := cpu.memory.write_byte address value }

/-- `Memory::read_word` from `src/cpu/memory.rs`: little-endian pair of byte
reads (`address + 1` wraps as a `u16`). -/
def Cpu.read_word (cpu : Cpu) (address : Nat) : Nat :=
  let lo := cpu.read_byte address
  let hi := cpu.read_byte ((address + 1) % 65536)
  (hi <<< 8) ||| lo

/-- `Cpu::set_flag`. -/
def Cpu.set_flag (cpu : Cpu) (flag : Nat) (value : Bool) : Cpu :=
  if value then { cpu with p := cpu.p ||| flag }
  else { cpu with p := cpu.p &&& (0xFF ^^^ flag) }

/-- `Cpu::get_flag`. -/
def Cpu.get_flag (cpu : Cpu) (flag : Nat) : Bool :=
  decide (cpu.p &&& flag ≠ 0)

/-- `Cpu::update_nz_flags`. -/
def Cpu.update_nz_flags (cpu : Cpu) (value : Nat) : Cpu :=
  (cpu.set_flag StatusFlag.zero (decide (value = 0))).set_flag
    StatusFlag.negative (decide (value &&& 0x80 ≠ 0))

/-- `Cpu::push_stack`: store at `0x0100 + sp`, then decrement `sp` with wrap. -/
def Cpu.push_stack (cpu : Cpu) (value : Nat) : Cpu :=
  let cpu := cpu.write_byte (0x0100 + cpu.sp) value
  { cpu with sp := (cpu.sp + 255) % 256 }

/-- `Cpu::pull_stack`: increment `sp` with wrap, then read `0x0100 + sp`. -/
def Cpu.pull_stack (cpu : Cpu) : Nat × Cpu :=
  let sp := (cpu.sp + 1) % 256
  let cpu := { cpu with sp := sp }
  (cpu.read_byte (0x0100 + sp), cpu)

/-- `Cpu::lda`. -/
def Cpu.lda (cpu : Cpu) (address : Nat) : Cpu :=
  let value := cpu.read_byte address
  ({ cpu with a := value }).update_nz_flags value

/-- `Cpu::ldx`. -/
def Cpu.ldx (cpu : Cpu) (address : Nat) : Cpu :=
  let value := cpu.read_byte address
  ({ cpu with x := value }).update_nz_flags value

/-- `Cpu::ldy`. -/
def Cpu.ldy (cpu : Cpu) (address : Nat) : Cpu :=
  let value := cpu.read_byte address
  ({ cpu with y := value }).update_nz_flags value

/-- `Cpu::sta`. -/
def Cpu.sta (cpu : Cpu) (address : Nat) : Cpu :=
  cpu.write_byte address cpu.a

/-- `Cpu::tax`. -/
def Cpu.tax (cpu : Cpu) : Cpu :=
  ({ cpu with x := cpu.a }).update_nz_flags cpu.a

/-- `Cpu::tay` (the source assigns `self.y = self.a`). -/
def Cpu.tay (cpu : Cpu) : Cpu :=
  ({ cpu with y := cpu.a }).update_nz_flags cpu.a

/-- `Cpu::txa`. -/
def Cpu.txa (cpu : Cpu) : Cpu :=
  ({ cpu with a := cpu.x }).update_nz_flags cpu.x

/-- `Cpu::tya`. -/
def Cpu.tya (cpu : Cpu) : Cpu :=
  ({ cpu with a := cpu.y }).update_nz_flags cpu.y

/-- `Cpu::inx`. -/
def Cpu.inx (cpu : Cpu) : Cpu :=
  let v := (cpu.x + 1) % 256
  ({ cpu with x := v }).update_nz_flags v

/-- `Cpu::iny`. -/
def Cpu.iny (cpu : Cpu) : Cpu :=
  let v := (cpu.y + 1) % 256
  ({ cpu with y := v }).update_nz_flags v

/-- `Cpu::dex` (`wrapping_sub(1)`). -/
def Cpu.dex (cpu : Cpu) : Cpu :=
  let v := (cpu.x + 255) % 256
  ({ cpu with x := v }).update_nz_flags v

/-- `Cpu::dey`. -/
def Cpu.dey (cpu : Cpu) : Cpu :=
  let v := (cpu.y + 255) % 256
  ({ cpu with y := v }).update_nz_flags v

/-- `Cpu::ora`. -/
def Cpu.ora (cpu : Cpu) (address : Nat) : Cpu :=
  let v := cpu.a ||| cpu.read_byte address
  ({ cpu with a := v }).update_nz_flags v

/-- `Cpu::and`. -/
def Cpu.and (cpu : Cpu) (address : Nat) : Cpu :=
  let v := cpu.a &&& cpu.read_byte address
  ({ cpu with a := v }).update_nz_flags v

/-- `Cpu::eor`. -/
def Cpu.eor (cpu : Cpu) (address : Nat) : Cpu :=
  let v := cpu.a ^^^ cpu.read_byte address
  ({ cpu with a := v }).update_nz_flags v

/-- `Cpu::adc`: 8-bit add with carry; the carry / N / Z / V flags are
computed from the old accumulator, the operand and the truncated sum,
exactly as in the source. -/
def Cpu.adc (cpu : Cpu) (address : Nat) : Cpu :=
  let value := cpu.read_byte address
  let carry := if cpu.get_flag StatusFlag.carry then 1 else 0
  let total := cpu.a + value + carry
  let sum2 := total % 256
  let cpu1 := cpu.set_flag StatusFlag.carry (decide (256 ≤ total))
  let cpu2 := cpu1.update_nz_flags sum2
  let cpu3 := cpu2.set_flag StatusFlag.overflow
    (decide ((cpu.a ^^^ sum2) &&& (value ^^^ sum2) &&& 0x80 ≠ 0))
  { cpu3 with a := sum2 }

/-- `Cpu::sbc`: one's complement of the operand, then the same addition as
`adc`. -/
def Cpu.sbc (cpu : Cpu) (address : Nat) : Cpu :=
  let value := cpu.read_byte address ^^^ 0xFF
  let carry := if cpu.get_flag StatusFlag.carry then 1 else 0
  let total := cpu.a + value + carry
  let sum2 := total % 256
  let cpu1 := cpu.set_flag StatusFlag.carry (decide (256 ≤ total))
  let cpu2 := cpu1.update_nz_flags sum2
  let cpu3 := cpu2.set_flag StatusFlag.overflow
    (decide ((cpu.a ^^^ sum2) &&& (value ^^^ sum2) &&& 0x80 ≠ 0))
  { cpu3 with a := sum2 }

/-- `Cpu::cmp` (`wrapping_sub` for the N-flag value). -/
def Cpu.cmp (cpu : Cpu) (address : Nat) : Cpu :=
  let value := cpu.read_byte address
  let result := (cpu.a + 256 - value % 256) % 256
  let cpu1 := cpu.set_flag StatusFlag.carry (decide (value ≤ cpu.a))
  let cpu2 := cpu1.set_flag StatusFlag.zero (decide (cpu.a = value))
  cpu2.set_flag StatusFlag.negative (decide (result &&& 0x80 ≠ 0))

/-- `Cpu::cpx`. -/
def Cpu.cpx (cpu : Cpu) (address : Nat) : Cpu :=
  let value := cpu.read_byte address
  let result := (cpu.x + 256 - value % 256) % 256
  let cpu1 := cpu.set_flag StatusFlag.carry (decide (value ≤ cpu.x))
  let cpu2 := cpu1.set_flag StatusFlag.zero (decide (cpu.x = value))
  cpu2.set_flag StatusFlag.negative (decide (result &&& 0x80 ≠ 0))

/-- `Cpu::cpy`. -/
def Cpu.cpy (cpu : Cpu) (address : Nat) : Cpu :=
  let value := cpu.read_byte address
  let result := (cpu.y + 256 - value % 256) % 256
  let cpu1 := cpu.set_flag StatusFlag.carry (decide (value ≤ cpu.y))
  let cpu2 := cpu1.set_flag StatusFlag.zero (decide (cpu.y = value))
  cpu2.set_flag StatusFlag.negative (decide (result &&& 0x80 ≠ 0))

/-- `Cpu::bit`. -/
def Cpu.bit (cpu : Cpu) (address : Nat) : Cpu :=
  let value := cpu.read_byte address
  let result := cpu.a &&& value
  let cpu1 := cpu.set_flag StatusFlag.zero (decide (result = 0))
  let cpu2 := cpu1.set_flag StatusFlag.negative (decide (value &&& 0x80 ≠ 0))
  cpu2.set_flag StatusFlag.overflow (decide (value &&& 0x40 ≠ 0))

/-- `Cpu::asl`: accumulator variant under `Implied`, memory variant otherwise. -/
def Cpu.asl (cpu : Cpu) (address : Nat) (addressing_mode : AddressingMode) : Cpu :=
  match addressing_mode with
  | AddressingMode.implied =>
    let carry := decide (cpu.a &&& 0x80 ≠ 0)
    let v := (cpu.a <<< 1) % 256
    let cpu := { cpu with a := v }
    let cpu := cpu.set_flag StatusFlag.carry carry
    let cpu := cpu.set_flag StatusFlag.zero (decide (v = 0))
    cpu.set_flag StatusFlag.negative (decide (v &&& 0x80 ≠ 0))
  | _ =>
    let value := cpu.read_byte address
    let carry := decide (value &&& 0x80 ≠ 0)
    let v := (value <<< 1) % 256
    let cpu := cpu.write_byte address v
    let cpu := cpu.set_flag StatusFlag.carry carry
    let cpu := cpu.set_flag StatusFlag.zero (decide (v = 0))
    cpu.set_flag StatusFlag.negative (decide (v &&& 0x80 ≠ 0))

/-- `Cpu::lsr`. -/
def Cpu.lsr (cpu : Cpu) (address : Nat) (addressing_mode : AddressingMode) : Cpu :=
  match addressing_mode with
  | AddressingMode.implied =>
    let carry := decide (cpu.a &&& 0x01 ≠ 0)
    let v := cpu.a >>> 1
    let cpu := { cpu with a := v }
    let cpu := cpu.set_flag StatusFlag.carry carry
    let cpu := cpu.set_flag StatusFlag.zero (decide (v = 0))
    cpu.set_flag StatusFlag.negative false
  | _ =>
    let value := cpu.read_byte address
    let carry := decide (value &&& 0x01 ≠ 0)
    let v := value >>> 1
    let cpu := cpu.write_byte address v
    let cpu := cpu.set_flag StatusFlag.carry carry
    let cpu := cpu.set_flag StatusFlag.zero (decide (v = 0))
    cpu.set_flag StatusFlag.negative false

/-- `Cpu::dec`. -/
def Cpu.dec (cpu : Cpu) (address : Nat) : Cpu :=
  let value := (cpu.read_byte address + 255) % 256
  (cpu.write_byte address value).update_nz_flags value

/-- `Cpu::inc`. -/
def Cpu.inc (cpu : Cpu) (address : Nat) : Cpu :=
  let value := (cpu.read_byte address + 1) % 256
  (cpu.write_byte address value).update_nz_flags value

/-- `Cpu::jmp`. -/
def Cpu.jmp (cpu : Cpu) (address : Nat) : Cpu :=
  { cpu with pc := address }

/-- `Cpu::jsr`: push `pc + 1` (high then low), set `pc` to the target. -/
def Cpu.jsr (cpu : Cpu) (address : Nat) : Cpu :=
  let return_addr := (cpu.pc + 1) % 65536
  let cpu := cpu.push_stack (return_addr >>> 8)
  let cpu := cpu.push_stack (return_addr &&& 0xFF)
  { cpu with pc := address }

/-- `Cpu::rts`: pull low then high, set `pc` to the pulled word plus one. -/
def Cpu.rts (cpu : Cpu) : Cpu :=
  let (pcl, cpu) := cpu.pull_stack
  let (pch, cpu) := cpu.pull_stack
  { cpu with pc := (((pch <<< 8) ||| pcl) + 1) % 65536 }

/-- `Cpu::rti`: pull status (B cleared, Unused set), then pull `pc`. -/
def Cpu.rti (cpu : Cpu) : Cpu :=
  let (status, cpu) := cpu.pull_stack
  let cpu := { cpu with p := (status &&& 0b11101111) ||| 0b00100000 }
  let (pcl, cpu) := cpu.pull_stack
  let (pch, cpu) := cpu.pull_stack
  { cpu with pc := (pch <<< 8) ||| pcl }

/-- `Cpu::nop`. -/
def Cpu.nop (cpu : Cpu) : Cpu :=
  cpu

/-- `Cpu::branch` from `src/cpu/core.rs`: when the condition holds, add the
sign-extended operand byte to `pc` (which points at the operand), add one
cycle, and one more when `bit_utils::page_crossed(old_pc, new_pc)`. -/
def Cpu.branch (cpu : Cpu) (condition : Bool) : Cpu :=
  if condition then
    let old_pc := cpu.pc
    let offset := cpu.read_byte cpu.pc
    let new_pc := (cpu.pc + signExt8 offset) % 65536
    let cpu := { cpu with pc := new_pc, cycles := cpu.cycles + 1 }
    if page_crossed old_pc new_pc then { cpu with cycles := cpu.cycles + 1 } else cpu
  else cpu

/-- `Cpu::brk`: advance `pc` by one, push `pc` (high, low) and the status
with B and Unused set, set the I flag, and load `pc` from `0xFFFE`. -/
def Cpu.brk (cpu : Cpu) : Cpu :=
  let cpu := { cpu with pc := (cpu.pc + 1) % 65536 }
  let cpu := cpu.push_stack (cpu.pc >>> 8)
  let cpu := cpu.push_stack (cpu.pc &&& 0xFF)
  let status := (cpu.p ||| StatusFlag.break_) ||| StatusFlag.unused
  let cpu := cpu.push_stack status
  let cpu := cpu.set_flag StatusFlag.interruptDisable true
  { cpu with pc := cpu.read_word 0xFFFE }

/-- `Cpu::get_operand_address` from `src/cpu/core.rs`.  `pc` points at the
byte after the opcode.  The `Indirect` arm reproduces the 6502 page-wrap
quirk: a pointer with low byte `0xFF` reads its high byte from the start of
the same page.  Only `AddressingMode::None` produces an error. -/
def Cpu.get_operand_address (cpu : Cpu) (instruction : Instruction) : Except CpuError Nat :=
  match instruction.addressing_mode with
  | AddressingMode.immediate => Except.ok cpu.pc
  | AddressingMode.zeroPage => Except.ok (cpu.read_byte cpu.pc)
  | AddressingMode.zeroPageX =>
    Except.ok ((cpu.read_byte cpu.pc + cpu.x) % 256)
  | AddressingMode.zeroPageY =>
    Except.ok ((cpu.read_byte cpu.pc + cpu.y) % 256)
  | AddressingMode.absolute => Except.ok (cpu.read_word cpu.pc)
  | AddressingMode.absoluteX => Except.ok ((cpu.read_word cpu.pc + cpu.x) % 65536)
  | AddressingMode.absoluteY => Except.ok ((cpu.read_word cpu.pc + cpu.y) % 65536)
  | AddressingMode.indirectX =>
    let base := cpu.read_byte cpu.pc
    let ptr := (base + cpu.x) % 256
    let lo := cpu.read_byte ptr
    let hi := cpu.read_byte ((ptr + 1) % 256)
    Except.ok ((hi <<< 8) ||| lo)
  | AddressingMode.indirectY =>
    let base := cpu.read_byte cpu.pc
    let lo := cpu.read_byte base
    let hi := cpu.read_byte ((base + 1) % 256)
    Except.ok ((((hi <<< 8) ||| lo) + cpu.y) % 65536)
  | AddressingMode.indirect =>
    let indirect_addr := cpu.read_word cpu.pc
    if indirect_addr &&& 0xFF = 0xFF then
      let lo := cpu.read_byte indirect_addr
      let hi := cpu.read_byte (indirect_addr &&& 0xFF00)
      Except.ok ((hi <<< 8) ||| lo)
    else
      Except.ok (cpu.read_word indirect_addr)
  | AddressingMode.relative =>
    let offset := cpu.read_byte cpu.pc
    Except.ok (((cpu.pc + 1) % 65536 + signExt8 offset) % 65536)
  | AddressingMode.implied => Except.ok 0
  | AddressingMode.none =>
    Except.error (CpuError.invalidInstruction cpu.pc "Addressing mode not supported")

/-- The opcode-dispatch `match` inside `Cpu::step` (everything except the
`0x00` BRK arm, which returns early in the source).  The final catch-all
mirrors the source's `_ => println!("Unknown opcode: …")`, which leaves the
CPU state unchanged. -/
def Cpu.execute_opcode (cpu : Cpu) (opcode operand_address : Nat)
    (mode : AddressingMode) : Cpu :=
  if opcode = 0xA9 ∨ opcode = 0xA5 ∨ opcode = 0xB5 ∨ opcode = 0xAD ∨ opcode = 0xBD ∨
      opcode = 0xB9 ∨ opcode = 0xA1 ∨ opcode = 0xB1 then cpu.lda operand_address
  else if opcode = 0x09 ∨ opcode = 0x05 ∨ opcode = 0x15 ∨ opcode = 0x0D ∨ opcode = 0x1D ∨
      opcode = 0x19 ∨ opcode = 0x01 ∨ opcode = 0x11 then cpu.ora operand_address
  else if opcode = 0xC9 ∨ opcode = 0xC5 ∨ opcode = 0xD5 ∨ opcode = 0xCD ∨ opcode = 0xDD ∨
      opcode = 0xD9 ∨ opcode = 0xC1 ∨ opcode = 0xD1 then cpu.cmp operand_address
  else if opcode = 0xE0 ∨ opcode = 0xE4 ∨ opcode = 0xEC then cpu.cpx operand_address
  else if opcode = 0xC0 ∨ opcode = 0xC4 ∨ opcode = 0xCC then cpu.cpy operand_address
  else if opcode = 0xAA then cpu.tax
  else if opcode = 0xA8 then cpu.tay
  else if opcode = 0x8A then cpu.txa
  else if opcode = 0x98 then cpu.tya
  else if opcode = 0xE8 then cpu.inx
  else if opcode = 0xC8 then cpu.iny
  else if opcode = 0xCA then cpu.dex
  else if opcode = 0x88 then cpu.dey
  else if opcode = 0x85 ∨ opcode = 0x95 ∨ opcode = 0x8D ∨ opcode = 0x9D ∨ opcode = 0x99 ∨
      opcode = 0x81 ∨ opcode = 0x91 then cpu.sta operand_address
  else if opcode = 0xA2 ∨ opcode = 0xA6 ∨ opcode = 0xAE ∨ opcode = 0xB6 ∨ opcode = 0xBE then
    cpu.ldx operand_address
  else if opcode = 0xA0 ∨ opcode = 0xA4 ∨ opcode = 0xB4 ∨ opcode = 0xAC ∨ opcode = 0xBC then
    cpu.ldy operand_address
  else if opcode = 0x20 then cpu.jsr operand_address
  else if opcode = 0x60 then cpu.rts
  else if opcode = 0x4C then cpu.jmp operand_address
  else if opcode = 0x10 then cpu.branch (!(cpu.get_flag StatusFlag.negative))
  else if opcode = 0x30 then cpu.branch (cpu.get_flag StatusFlag.negative)
  else if opcode = 0x50 then cpu.branch (!(cpu.get_flag StatusFlag.overflow))
  else if opcode = 0x70 then cpu.branch (cpu.get_flag StatusFlag.overflow)
  else if opcode = 0x90 then cpu.branch (!(cpu.get_flag StatusFlag.carry))
  else if opcode = 0xB0 then cpu.branch (cpu.get_flag StatusFlag.carry)
  else if opcode = 0xD0 then cpu.branch (!(cpu.get_flag StatusFlag.zero))
  else if opcode = 0xF0 then cpu.branch (cpu.get_flag StatusFlag.zero)
  else if opcode = 0x24 ∨ opcode = 0x2C then cpu.bit operand_address
  else if opcode = 0x69 ∨ opcode = 0x65 ∨ opcode = 0x75 ∨ opcode = 0x6D ∨ opcode = 0x7D ∨
      opcode = 0x79 ∨ opcode = 0x61 ∨ opcode = 0x71 then cpu.adc operand_address
  else if opcode = 0xE9 ∨ opcode = 0xE5 ∨ opcode = 0xF5 ∨ opcode = 0xED ∨ opcode = 0xFD ∨
      opcode = 0xF9 ∨ opcode = 0xE1 ∨ opcode = 0xF1 then cpu.sbc operand_address
  else if opcode = 0x4A ∨ opcode = 0x46 ∨ opcode = 0x56 ∨ opcode = 0x4E ∨ opcode = 0x5E then
    cpu.lsr operand_address mode
  else if opcode = 0xC6 ∨ opcode = 0xD6 ∨ opcode = 0xCE ∨ opcode = 0xDE then
    cpu.dec operand_address
  else if opcode = 0xE6 ∨ opcode = 0xF6 ∨ opcode = 0xEE ∨ opcode = 0xFE then
    cpu.inc operand_address
  else if opcode = 0x29 ∨ opcode = 0x25 ∨ opcode = 0x35 ∨ opcode = 0x2D ∨ opcode = 0x3D ∨
      opcode = 0x39 ∨ opcode = 0x21 ∨ opcode = 0x31 then cpu.and operand_address
  else if opcode = 0x49 ∨ opcode = 0x45 ∨ opcode = 0x55 ∨ opcode = 0x4D ∨ opcode = 0x5D ∨
      opcode = 0x59 ∨ opcode = 0x41 ∨ opcode = 0x51 then cpu.eor operand_address
  else if opcode = 0x0A ∨ opcode = 0x06 ∨ opcode = 0x16 ∨ opcode = 0x0E ∨ opcode = 0x1E then
    cpu.asl operand_address mode
  else if opcode = 0x18 then cpu.set_flag StatusFlag.carry false
  else if opcode = 0x38 then cpu.set_flag StatusFlag.carry true
  else if opcode = 0x40 then cpu.rti
  else if opcode = 0xEA then cpu.nop
  else cpu

/-- `Cpu::step` from `src/cpu/core.rs`: decode the byte at `pc` (failing
with `UnknownOpcode{opcode, pc}` when the table has no entry), advance `pc`
past the opcode, compute the operand address, dispatch (BRK returns
`Ok(false)` immediately after `brk()`), then advance `pc` past the operands
unless the mnemonic is JSR, JMP or RTS, bump the instruction counter and
add the instruction's base cycles.  File logging is a pure side channel and
is not modelled. -/
def Cpu.step (cpu : Cpu) : Except CpuError (Bool × Cpu) :=
  let opcode := cpu.read_byte cpu.pc
  match get_instruction opcode with
  | Option.none => Except.error (CpuError.unknownOpcode opcode cpu.pc)
  | some instruction =>
    let cpu1 := { cpu with pc := (cpu.pc + 1) % 65536 }
    match cpu1.get_operand_address instruction with
    | Except.error e => Except.error e
    | Except.ok operand_address =>
      if instruction.opcode = 0x00 then
        Except.ok (false, cpu1.brk)
      else
        let cpu2 := cpu1.execute_opcode instruction.opcode operand_address
          instruction.addressing_mode
        let cpu3 :=
          if instruction.mnemonic ≠ "JSR" ∧ instruction.mnemonic ≠ "JMP" ∧
              instruction.mnemonic ≠ "RTS" then
            { cpu2 with pc := (cpu2.pc + (instruction.bytes - 1)) % 65536 }
          else cpu2
        Except.ok (true,
          { cpu3 with instruction_count := cpu3.instruction_count + 1,
                      cycles := cpu3.cycles + instruction.cycles })

/-- The emulation-relevant state of `Emulator` from `src/emulator/core.rs`.
The Rust struct owns a `Cpu` and SDL windowing/font handles only — it has
no PPU and no APU field.  The two counters `ppu_step_invocations` and
`apu_step_invocations` instrument the embedding: they count how many times
the orchestrator's run loop invokes a PPU-step or APU-step routine.  The
loop body of `Emulator::run` (lines 160–260) contains no such invocation,
and `Emulator::update` (lines 522–526) has an empty body, so no transition
of this embedding ever increases them. -/
structure EmulatorState where
  cpu : Cpu
  cpu_running : Bool
  ppu_step_invocations : Nat
  apu_step_invocations : Nat

/-- `Emulator::update` from `src/emulator/core.rs`: the body only discards
its `dt` argument ("currently minimal since we're not implementing full PPU
timing"), so the state is returned unchanged. -/
def Emulator.update (e : EmulatorState) (dt : Nat) : EmulatorState :=
  let _ := dt
  e

/-- One iteration of the `'running` loop of `Emulator::run`
(`src/emulator/core.rs`, lines 160–260), restricted to its emulation
effects: call `update` (a no-op), then, when stepping is due
(`should_step`) and the CPU is still running, execute one `Cpu::step`;
a CPU error or a `BRK` stops further stepping.  No PPU- or APU-step
routine is invoked anywhere in the loop body. -/
def Emulator.run_iteration (e : EmulatorState) (dt : Nat) (should_step : Bool) :
    EmulatorState :=
  let e := Emulator.update e dt
  if e.cpu_running ∧ should_step then
    match e.cpu.step with
    | Except.ok (should_continue, cpu') =>
      { e with cpu := cpu', cpu_running := should_continue }
    | Except.error _ => { e with cpu_running := false }
  else e

/-- `Ppu` from `src/ppu/ppu.rs`.  Byte arrays (pattern table, nametable,
palette, OAM, frame buffers) are modelled as total functions. -/
structure Ppu where
  ctrl : Nat
  mask : Nat
  status : Nat
  oam_addr : Nat
  oam_data : Nat
  scroll : Nat
  addr : Nat
  data : Nat
  pattern_table : Nat → Nat
  name_table : Nat → Nat
  palette : Nat → Nat
  oam : Nat → Nat
  cycle : Nat
  scanline : Nat
  frame : Nat
  nmi_occurred : Bool
  nmi_output : Bool
  nmi_previous : Bool
  nmi_delay : Nat
  v : Nat
  t : Nat
  x : Nat
  w : Bool
  f : Bool
  name_table_byte : Nat
  attribute_table_byte : Nat
  low_tile_byte : Nat
  high_tile_byte : Nat
  tile_data : Nat
  sprite_count : Nat
  sprite_patterns : Nat → Nat
  sprite_positions : Nat → Nat
  sprite_priorities : Nat → Nat
  sprite_indexes : Nat → Nat
  front_buffer : Nat → Nat
  back_buffer : Nat → Nat

/-- `Ppu::new`: everything zeroed / false. -/
def Ppu.new : Ppu :=
  { ctrl := 0, mask := 0, status := 0, oam_addr := 0, oam_data := 0,
    scroll := 0, addr := 0, data := 0,
    pattern_table := fun _ => 0, name_table := fun _ => 0,
    palette := fun _ => 0, oam := fun _ => 0,
    cycle := 0, scanline := 0, frame := 0,
    nmi_occurred := false, nmi_output := false, nmi_previous := false,
    nmi_delay := 0, v := 0, t := 0, x := 0, w := false, f := false,
    name_table_byte := 0, attribute_table_byte := 0,
    low_tile_byte := 0, high_tile_byte := 0, tile_data := 0,
    sprite_count := 0,
    sprite_patterns := fun _ => 0, sprite_positions := fun _ => 0,
    sprite_priorities := fun _ => 0, sprite_indexes := fun _ => 0,
    front_buffer := fun _ => 0, back_buffer := fun _ => 0 }

/-- `Ppu::read_memory` from `src/ppu/ppu.rs` (lines 235–244): flat array
accesses — the palette range `0x3F00–0x3F1F` indexes `palette` directly at
`address - 0x3F00` with no mirroring of the `0x10/0x14/0x18/0x1C` slots. -/
def Ppu.read_memory (ppu : Ppu) (address : Nat) : Except MemoryError Nat :=
  if address ≤ 0x1FFF then Except.ok (ppu.pattern_table address % 256)
  else if address ≤ 0x2FFF then Except.ok (ppu.name_table (address - 0x2000) % 256)
  else if address ≤ 0x3EFF then Except.ok (ppu.name_table (address - 0x3000) % 256)
  else if address ≤ 0x3F1F then Except.ok (ppu.palette (address - 0x3F00) % 256)
  else if address ≤ 0x3FFF then Except.ok (ppu.palette (address - 0x3F20) % 256)
  else Except.error (MemoryError.outOfBounds address 0x4000)

/-- `Ppu::write_memory` from `src/ppu/ppu.rs` (lines 246–271): same flat
routing as `read_memory`; a write to `0x3F10` is stored at palette index
`0x10`, not at index `0x00`. -/
def Ppu.write_memory (ppu : Ppu) (address value : Nat) : Except MemoryError Ppu :=
  if address ≤ 0x1FFF then
    Except.ok { ppu with pattern_table :=
      fun i => if i = address then value % 256 else ppu.pattern_table i }
  else if address ≤ 0x2FFF then
    let idx := address - 0x2000
    Except.ok { ppu with name_table :=
      fun i => if i = idx then value % 256 else ppu.name_table i }
  else if address ≤ 0x3EFF then
    let idx := address - 0x3000
    Except.ok { ppu with name_table :=
      fun i => if i = idx then value % 256 else ppu.name_table i }
  else if address ≤ 0x3F1F then
    let idx := address - 0x3F00
    Except.ok { ppu with palette :=
      fun i => if i = idx then value % 256 else ppu.palette i }
  else if address ≤ 0x3FFF then
    let idx := address - 0x3F20
    Except.ok { ppu with palette :=
      fun i => if i = idx then value % 256 else ppu.palette i }
  else Except.error (MemoryError.outOfBounds address 0x4000)

/-- `Ppu::read_register` from `src/ppu/ppu.rs` (lines 149–170).  Reading
`0x2002` returns the status byte, then clears the VBlank bit (`&= 0x7F`)
and the write toggle `w`.  Reading `0x2007` returns the buffered byte and
refills the buffer from VRAM at `v`, incrementing `v` by 1 or 32 below the
palette range.  Other addresses error with `InvalidRegion`. -/
def Ppu.read_register (ppu : Ppu) (address : Nat) : Except MemoryError (Nat × Ppu) :=
  if address = 0x2002 then
    let result := ppu.status
    Except.ok (result, { ppu with status := ppu.status &&& 0x7F, w := false })
  else if address = 0x2004 then
    Except.ok (ppu.oam ppu.oam_addr % 256, ppu)
  else if address = 0x2007 then
    let result := ppu.data
    match ppu.read_memory ppu.v with
    | Except.error e => Except.error e
    | Except.ok fetched =>
      let ppu := { ppu with data := fetched }
      let ppu :=
        if ppu.v < 0x3F00 then
          { ppu with v := ppu.v + (if ppu.ctrl &&& 0x04 ≠ 0 then 32 else 1) }
        else ppu
      Except.ok (result, ppu)
  else Except.error (MemoryError.invalidRegion address)

/-- `Palette` from `src/ppu/palette.rs`: 32 bytes of palette RAM. -/
structure Palette where
  data : Nat → Nat

/-- `Palette::new`. -/
def Palette.new : Palette :=
  { data := fun _ => 0 }

/-- `Palette::read` from `src/ppu/palette.rs`: mask the address with `0x1F`
and mirror indices `0x10/0x14/0x18/0x1C` onto `0x00/0x04/0x08/0x0C`. -/
def Palette.read (p : Palette) (address : Nat) : Nat :=
  let addr := address &&& 0x1F
  if addr = 0x10 then p.data 0x00 % 256
  else if addr = 0x14 then p.data 0x04 % 256
  else if addr = 0x18 then p.data 0x08 % 256
  else if addr = 0x1C then p.data 0x0C % 256
  else p.data addr % 256

/-- `Palette::write` from `src/ppu/palette.rs`: same mirroring as `read`. -/
def Palette.write (p : Palette) (address value : Nat) : Palette :=
  let addr := address &&& 0x1F
  let idx :=
    if addr = 0x10 then 0x00
    else if addr = 0x14 then 0x04
    else if addr = 0x18 then 0x08
    else if addr = 0x1C then 0x0C
    else addr
  { data := fun i => if i = idx then value % 256 else p.data i }

/-- `NoiseChannel` from `src/apu/channels.rs`. -/
structure NoiseChannel where
  enabled : Bool
  length_counter : Nat
  envelope_enabled : Bool
  envelope_loop : Bool
  envelope_start : Bool
  envelope_divider : Nat
  envelope_counter : Nat
  envelope_volume : Nat
  timer_period : Nat
  timer_counter : Nat
  mode : Bool
  shift_register : Nat
deriving DecidableEq

/-- `NoiseChannel::new`: the LFSR starts at 1. -/
def NoiseChannel.new : NoiseChannel :=
  { enabled := false, length_counter := 0,
    envelope_enabled := false, envelope_loop := false, envelope_start := false,
    envelope_divider := 0, envelope_counter := 0, envelope_volume := 0,
    timer_period := 0, timer_counter := 0, mode := false,
    shift_register := 1 }

/-- `NoiseChannel::reset`: the LFSR is reset to 1. -/
def NoiseChannel.reset (ch : NoiseChannel) : NoiseChannel :=
  { ch with enabled := false, length_counter := 0, envelope_start := false,
            envelope_counter := 0, timer_counter := 0, shift_register := 1 }

/-- `NoiseChannel::step` from `src/apu/channels.rs` (lines 330–345): when
the timer fires, the feedback bit is `bit0 XOR bit6` (mode flag set) or
`bit0 XOR bit1` (mode flag clear); the register shifts right and the
feedback enters at bit 14. -/
def NoiseChannel.step (ch : NoiseChannel) : NoiseChannel :=
  if ch.timer_counter = 0 then
    let feedback :=
      if ch.mode then (ch.shift_register &&& 1) ^^^ ((ch.shift_register >>> 6) &&& 1)
      else (ch.shift_register &&& 1) ^^^ ((ch.shift_register >>> 1) &&& 1)
    { ch with timer_counter := ch.timer_period,
              shift_register := (ch.shift_register >>> 1) ||| (feedback <<< 14) }
  else
    { ch with timer_counter := ch.timer_counter - 1 }

/-- The extra cycles `Cpu::branch` adds beyond the base cycles: one when the
branch is taken, one more when `page_crossed(old_pc, new_pc)` holds for the
pre-branch `pc` (pointing at the operand byte) and the branch target. -/
def branch_taken_delta (cpu : Cpu) (condition : Bool) : Nat :=
  if condition then
    1 + (if page_crossed cpu.pc ((cpu.pc + signExt8 (cpu.read_byte cpu.pc)) % 65536)
         then 1 else 0)
  else 0

/-- The cycle delta that the opcode-dispatch of `Cpu::step` adds beyond the
base cycles, as a function of the dispatched opcode and of the CPU state at
dispatch time (`pc` past the opcode byte): the eight conditional branches
add `branch_taken_delta` for their respective flag condition; every other
opcode adds nothing. -/
def branch_cycle_delta (opcode : Nat) (cpu : Cpu) : Nat :=
  if opcode = 0x10 then branch_taken_delta cpu (!(cpu.get_flag StatusFlag.negative))
  else if opcode = 0x30 then branch_taken_delta cpu (cpu.get_flag StatusFlag.negative)
  else if opcode = 0x50 then branch_taken_delta cpu (!(cpu.get_flag StatusFlag.overflow))
  else if opcode = 0x70 then branch_taken_delta cpu (cpu.get_flag StatusFlag.overflow)
  else if opcode = 0x90 then branch_taken_delta cpu (!(cpu.get_flag StatusFlag.carry))
  else if opcode = 0xB0 then branch_taken_delta cpu (cpu.get_flag StatusFlag.carry)
  else if opcode = 0xD0 then branch_taken_delta cpu (!(cpu.get_flag StatusFlag.zero))
  else if opcode = 0xF0 then branch_taken_delta cpu (cpu.get_flag StatusFlag.zero)
  else 0

/-- Checks whether a `Rom::new` result is an `UnsupportedMapper` error. -/
def is_unsupported_mapper_error : Except RomError Rom → Bool
  | Except.error (RomError.unsupportedMapper _) => true
  | _ => false

/-- Test state for C1: a fresh emulator whose CPU is about to execute `NOP`
(opcode `0xEA`, 2 cycles) from internal RAM at `pc = 0`. -/
def c1_emulator : EmulatorState :=
  { cpu := { Cpu.new with memory :=
      { NesMemory.new with internal_ram := fun i => if i = 0 then 0xEA else 0 } }
    cpu_running := true
    ppu_step_invocations := 0
    apu_step_invocations := 0 }

/-- Test state for C2: a fresh CPU whose byte at `pc = 0` is `0x02`, an
opcode absent from the decode table. -/
def c2_cpu : Cpu :=
  { Cpu.new with memory :=
      { NesMemory.new with internal_ram := fun i => if i = 0 then 0x02 else 0 } }

/-- PRG ROM for the C3 branch scenario: bytes `F0 04` (BEQ +4) at PRG
offsets `0xFE`/`0xFF`, i.e. CPU addresses `0x80FE`/`0x80FF`. -/
def c3_prg_rom : List Nat :=
  List.replicate 0xFE 0 ++ [0xF0, 0x04]

/-- The loaded cartridge for the C3 branch scenario. -/
def c3_rom : Rom :=
  { prg_rom := c3_prg_rom, chr_rom := [],
    mirror_mode := MirrorMode.horizontal, mapper := 0, prg_ram_size := 0x2000 }

/-- Test state for C3's branch scenario: `PC = 0x80FE`, `Z = 1`, the bytes
`F0 04` at `0x80FE`. -/
def c3_beq_cpu : Cpu :=
  { Cpu.new with
    pc := 0x80FE
    p := StatusFlag.zero
    memory := { NesMemory.new with rom := some c3_rom } }

/-- Test state for C3's counterexample: `BD FF 30` (LDA `$30FF,X`) at
`pc = 0` with `X = 1`, so the effective address `0x3100` crosses a page
from the base address `0x30FF`. -/
def c3_absx_cpu : Cpu :=
  { Cpu.new with
    x := 1
    memory := { NesMemory.new with internal_ram := fun i =>
      if i = 0 then 0xBD else if i = 1 then 0xFF else if i = 2 then 0x30 else 0 } }

/-- Test state for C4: the MMC1 mapper after five `write_register` calls to
`0xE000` with the values `0b00000`, `0b00001`, `0b00010`, `0b00100`,
`0b01000` in that order, starting from `Mapper001::new(16, 2)`. -/
def c4_mapper : Mapper001 :=
  (((((Mapper001.new 16 2).write_register 0xE000 0b00000).write_register
      0xE000 0b00001).write_register 0xE000 0b00010).write_register
      0xE000 0b00100).write_register 0xE000 0b01000

/-- Test data for C5: a well-formed iNES image (signature, 1×16 KiB PRG,
no CHR, no trainer) whose header encodes mapper number 4
(`flags6 = 0x40`, `flags7 = 0x00`). -/
def c5_rom_data : List Nat :=
  [0x4E, 0x45, 0x53, 0x1A, 1, 0, 0x40, 0x00, 0, 0, 0, 0, 0, 0, 0, 0] ++
    List.replicate 16384 0

/-- Test state for C8: `6C FF 30` (JMP `($30FF)`) at `pc = 0`; the pointer
`0x30FF` maps to PPU-register mirror cell 7 (holding `0x80`) and `0x3000`
maps to cell 0 (holding `0x40`), so the quirky indirect target is `0x4080`. -/
def c8_cpu : Cpu :=
  { Cpu.new with memory :=
      { NesMemory.new with
        internal_ram := fun i =>
          if i = 0 then 0x6C else if i = 1 then 0xFF else if i = 2 then 0x30 else 0
        ppu_registers := fun i =>
          if i = 7 then 0x80 else if i = 0 then 0x40 else 0 } }

/-- The decoded instruction record for opcode `0x6C` (JMP Indirect). -/
def jmp_indirect_instruction : Instruction :=
  ⟨"JMP", 0x6C, AddressingMode.indirect, 5, 3⟩

theorem lor_eq_zero_left {a b : Nat} (h : a ||| b = 0) : a = 0 := by
  apply Nat.eq_of_testBit_eq
  intro i
  have h2 := congrArg (fun n => n.testBit i) h
  simp only [Nat.testBit_lor, Nat.zero_testBit, Bool.or_eq_false_iff] at h2
  simp [h2.1]

@[simp] theorem cycles_set_flag (cpu : Cpu) (flag : Nat) (v : Bool) :
    (cpu.set_flag flag v).cycles = cpu.cycles := by
  unfold Cpu.set_flag; split <;> rfl

@[simp] theorem cycles_update_nz_flags (cpu : Cpu) (v : Nat) :
    (cpu.update_nz_flags v).cycles = cpu.cycles := by
  unfold Cpu.update_nz_flags; simp

@[simp] theorem cycles_write_byte (cpu : Cpu) (a v : Nat) :
    (cpu.write_byte a v).cycles = cpu.cycles := rfl

@[simp] theorem cycles_push_stack (cpu : Cpu) (v : Nat) :
    (cpu.push_stack v).cycles = cpu.cycles := rfl

@[simp] theorem cycles_pull_stack (cpu : Cpu) :
    (cpu.pull_stack).2.cycles = cpu.cycles := rfl

theorem cycles_branch (cpu : Cpu) (condition : Bool) :
    (cpu.branch condition).cycles = cpu.cycles + branch_taken_delta cpu condition := by
  unfold Cpu.branch branch_taken_delta
  split
  · split <;> simp_all
  · simp

/-- C7: two consecutive reads of PPU register `0x2002` with no intervening
activity: the first returns the status byte and clears the VBlank bit and
the write toggle `w`; the second therefore returns a value whose VBlank bit
(bit 7) is zero, and leaves it zero in the stored status as well. -/
theorem c7_ppustatus_double_read (ppu : Ppu) :
    ∃ r1 p1 r2 p2,
      ppu.read_register 0x2002 = Except.ok (r1, p1) ∧
      p1.read_register 0x2002 = Except.ok (r2, p2) ∧
      r1 = ppu.status ∧
      p1.status = ppu.status &&& 0x7F ∧
      p1.w = false ∧
      r2 &&& 0x80 = 0 ∧
      p2.status &&& 0x80 = 0 := by
  have h : (0x7F &&& 0x80 : Nat) = 0 := by decide
  refine ⟨_, _, _, _, rfl, rfl, rfl, rfl, rfl, ?_, ?_⟩
  · show (ppu.status &&& 0x7F) &&& 0x80 = 0
    rw [Nat.land_assoc, h]
    simp
  · show ((ppu.status &&& 0x7F) &&& 0x7F) &&& 0x80 = 0
    rw [Nat.land_assoc ((ppu.status &&& 0x7F)), h]
    simp

theorem noise_step_preserves_nonzero (ch : NoiseChannel)
    (h : ch.shift_register ≠ 0) : (ch.step).shift_register ≠ 0 := by
  unfold NoiseChannel.step
  split
  · intro h0
    simp only at h0
    rcases Nat.lt_or_ge ch.shift_register 2 with hlt | hge
    · have h1 : ch.shift_register = 1 := by omega
      rw [h1] at h0
      cases hm : ch.mode <;> rw [hm] at h0 <;> simp at h0
    · have h1 : ch.shift_register >>> 1 ≠ 0 := by
        have h2 : ch.shift_register >>> 1 = ch.shift_register / 2 := by omega
        omega
      exact h1 (lor_eq_zero_left h0)
  · simpa using h

/-- C9: the noise channel's LFSR is never zero: it is initialised to 1 by
`NoiseChannel::new`, reset to 1 by `NoiseChannel::reset`, and no number of
`NoiseChannel::step` calls — whatever the mode bit and timer fields —
takes it from a nonzero value to zero. -/
theorem c9_lfsr_never_zero :
    NoiseChannel.new.shift_register = 1 ∧
    (∀ ch : NoiseChannel, (ch.reset).shift_register = 1) ∧
    (∀ (ch : NoiseChannel) (n : Nat), ch.shift_register ≠ 0 →
      (NoiseChannel.step^[n] ch).shift_register ≠ 0) := by
  refine ⟨rfl, fun ch => rfl, fun ch n => ?_⟩
  induction n generalizing ch with
  | zero => exact fun h => h
  | succ n ih =>
    intro h
    rw [Function.iterate_succ_apply]
    exact ih _ (noise_step_preserves_nonzero ch h)

/-- Witness for C9: the hypothesis of the iteration statement is satisfiable
— a fresh noise channel has a nonzero LFSR, and stepping it five times
keeps it nonzero. -/
theorem c9_lfsr_never_zero_witness :
    NoiseChannel.new.shift_register ≠ 0 ∧
    (NoiseChannel.step^[5] NoiseChannel.new).shift_register ≠ 0 :=
  ⟨by decide, c9_lfsr_never_zero.2.2 NoiseChannel.new 5 (by decide)⟩

theorem write_byte_apu_test_range (m : NesMemory) (a v : Nat)
    (h1 : 0x4018 ≤ a) (h2 : a ≤ 0x401F) (j : Nat) :
    (m.write_byte a v).apu_io_registers j =
      if j = a - 0x4018 then v % 256 else m.apu_io_registers j := by
  unfold NesMemory.write_byte
  simp only []
  repeat' split
  all_goals first | omega | rfl | simp_all

theorem read_byte_apu_window (m : NesMemory) (a : Nat)
    (h1 : 0x4000 ≤ a) (h2 : a ≤ 0x4017) :
    m.read_byte a = m.apu_io_registers (a - 0x4000) % 256 := by
  unfold NesMemory.read_byte
  simp only []
  repeat' split
  all_goals omega

theorem read_byte_apu_test_window (m : NesMemory) (a : Nat)
    (h1 : 0x4018 ≤ a) (h2 : a ≤ 0x401F) :
    m.read_byte a = m.apu_io_registers (a - 0x4018) % 256 := by
  unfold NesMemory.read_byte
  simp only []
  repeat' split
  all_goals omega

/-- C10: for every address in `0x4018..=0x401F`, `NesMemory::write_byte`
stores the value at `apu_io_registers[address - 0x4018]` and
`NesMemory::read_byte` reads `apu_io_registers[address - 0x4018]` — offsets
`0..=7`, the same storage cells as the pulse-channel registers
`0x4000..=0x4007`, so a write to the test range is visible at the aliased
pulse-register address `address - 0x18`. -/
theorem c10_apu_test_range_aliasing (m : NesMemory) (a v : Nat)
    (h1 : 0x4018 ≤ a) (h2 : a ≤ 0x401F) :
    (m.write_byte a v).apu_io_registers (a - 0x4018) = v % 256 ∧
    m.read_byte a = m.apu_io_registers (a - 0x4018) % 256 ∧
    (m.write_byte a v).read_byte (a - 0x18) = v % 256 := by
  refine ⟨?_, read_byte_apu_test_window m a h1 h2, ?_⟩
  · rw [write_byte_apu_test_range m a v h1 h2, if_pos rfl]
  · rw [read_byte_apu_window _ (a - 0x18) (by omega) (by omega),
      write_byte_apu_test_range m a v h1 h2]
    rw [if_pos (by omega)]
    omega

/-- Witness for C10: instantiated at a fresh memory, address `0x401F` and
value `0xAB` — the write lands in `apu_io_registers[7]` and is read back at
the aliased pulse-register address `0x4007`. -/
theorem c10_apu_test_range_aliasing_witness :
    ((0x4018 : Nat) ≤ 0x401F ∧ (0x401F : Nat) ≤ 0x401F) ∧
    ((NesMemory.new.write_byte 0x401F 0xAB).apu_io_registers (0x401F - 0x4018) = 0xAB % 256 ∧
     NesMemory.new.read_byte 0x401F = NesMemory.new.apu_io_registers (0x401F - 0x4018) % 256 ∧
     (NesMemory.new.write_byte 0x401F 0xAB).read_byte (0x401F - 0x18) = 0xAB % 256) :=
  ⟨⟨by decide, by decide⟩,
   c10_apu_test_range_aliasing NesMemory.new 0x401F 0xAB (by decide) (by decide)⟩

/-- C6 (counterexample): on the PPU of `src/ppu/ppu.rs`, a palette write of
`0x2A` to `0x3F10` followed by a read of the aliased address `0x3F00`
returns 0 (the untouched base cell), not the written value `0x2A`. -/
theorem c6_palette_alias_counterexample :
    (Ppu.new.write_memory 0x3F10 0x2A).bind (fun p => p.read_memory 0x3F00) =
      Except.ok 0x00 ∧
    ¬((Except.ok 0x00 : Except MemoryError Nat) = Except.ok 0x2A) :=
  ⟨rfl, fun h => by simp at h⟩

/-- C6 (amended): the `0x10/0x14/0x18/0x1C → 0x00/0x04/0x08/0x0C` palette
aliasing holds for the standalone `Palette` component (`src/ppu/palette.rs`):
a write to an aliased slot is read back (as a byte) from the base slot.  The
`Ppu`'s own palette memory (`Ppu::write_memory` / `Ppu::read_memory`) is
flat: after a write of `v` to `0x3F10`, a read of `0x3F00` still returns
the old base-slot byte, not `v`. -/
theorem c6_palette_aliasing :
    (∀ (p : Palette) (v : Nat),
      (p.write 0x10 v).read 0x00 = v % 256 ∧
      (p.write 0x14 v).read 0x04 = v % 256 ∧
      (p.write 0x18 v).read 0x08 = v % 256 ∧
      (p.write 0x1C v).read 0x0C = v % 256) ∧
    (∀ (ppu : Ppu) (v : Nat),
      (ppu.write_memory 0x3F10 v).bind (fun p2 => p2.read_memory 0x3F00) =
        Except.ok (ppu.palette 0x00 % 256)) := by
  constructor
  · intro p v
    refine ⟨?_, ?_, ?_, ?_⟩ <;>
      · show v % 256 % 256 = v % 256
        omega
  · intro ppu v
    unfold Ppu.write_memory Ppu.read_memory
    norm_num [Except.bind]

/-- C1 (counterexample): in one iteration of the orchestrator's run loop
the CPU executes a NOP costing 2 cycles, yet the loop performs 0 PPU-step
invocations and 0 APU-step invocations — not `3·c = 6` and not `c = 2`. -/
theorem c1_run_loop_counterexample :
    (∃ cpu', Cpu.step c1_emulator.cpu = Except.ok (true, cpu') ∧
       cpu'.cycles = c1_emulator.cpu.cycles + 2) ∧
    (Emulator.run_iteration c1_emulator 0 true).ppu_step_invocations = 0 ∧
    (Emulator.run_iteration c1_emulator 0 true).apu_step_invocations = 0 ∧
    ¬((0 : Nat) = 3 * 2) ∧ ¬((0 : Nat) = 2) := by
  refine ⟨⟨_, rfl, rfl⟩, rfl, rfl, by decide, by decide⟩

/-- C1 (amended): the orchestrator's `update` is the identity on the
emulator state, and one iteration of the run loop never invokes a PPU-step
or an APU-step routine — only the CPU is stepped. -/
theorem c1_run_loop_steps_cpu_only :
    (∀ (e : EmulatorState) (dt : Nat), Emulator.update e dt = e) ∧
    (∀ (e : EmulatorState) (dt : Nat) (should_step : Bool),
      (Emulator.run_iteration e dt should_step).ppu_step_invocations =
        e.ppu_step_invocations ∧
      (Emulator.run_iteration e dt should_step).apu_step_invocations =
        e.apu_step_invocations) := by
  refine ⟨fun e dt => rfl, fun e dt should_step => ⟨?_, ?_⟩⟩ <;>
  · unfold Emulator.run_iteration Emulator.update
    simp only []
    split
    · split <;> rfl
    · rfl

/-- C2: whenever the byte at `pc` decodes to no table entry, `Cpu::step`
returns `UnknownOpcode` carrying exactly that pc and that opcode byte — it
neither executes anything nor returns `Ok`. -/
theorem c2_unknown_opcode_errors (cpu : Cpu)
    (h : get_instruction (cpu.read_byte cpu.pc) = Option.none) :
    Cpu.step cpu =
      Except.error (CpuError.unknownOpcode (cpu.read_byte cpu.pc) cpu.pc) := by
  unfold Cpu.step
  simp only []
  rw [h]

/-- Witness for C2: the byte `0x02` at `pc = 0` has no decode-table entry,
and stepping fails with `UnknownOpcode{opcode := 0x02, pc := 0}`. -/
theorem c2_unknown_opcode_errors_witness :
    get_instruction (c2_cpu.read_byte c2_cpu.pc) = Option.none ∧
    Cpu.step c2_cpu = Except.error (CpuError.unknownOpcode 0x02 0x0000) :=
  ⟨rfl, c2_unknown_opcode_errors c2_cpu rfl⟩

/-- C8: the decode table maps `0x6C` to JMP/Indirect and
`Cpu::get_operand_address` implements the same-page wrap quirk — on the
claim's concrete memory it computes `0x4080` — but the opcode-dispatch
`match` in `Cpu::step` has no arm for `0x6C`, so the instruction falls into
the catch-all, no jump is performed, and execution ends at `PC = 0x0001`
(the byte after the opcode), not at `0x4080`. -/
theorem c8_jmp_indirect_missing_dispatch :
    get_instruction 0x6C = some jmp_indirect_instruction ∧
    ({ c8_cpu with pc := 1 } : Cpu).get_operand_address jmp_indirect_instruction =
      Except.ok 0x4080 ∧
    (∃ cpu', Cpu.step c8_cpu = Except.ok (true, cpu') ∧
       cpu'.pc = 0x0001 ∧ ¬(cpu'.pc = 0x4080) ∧ cpu'.cycles = c8_cpu.cycles + 5) := by
  exact ⟨rfl, rfl, ⟨_, rfl, rfl, by decide, rfl⟩⟩

/-- The length of the C5 test image. -/
theorem c5_rom_data_length : c5_rom_data.length = 16400 := by
  unfold c5_rom_data
  rw [List.length_append, List.length_replicate]
  rfl

/-- Parsing the C5 test image yields the mapper-4 header. -/
theorem c5_header_parse :
    InesHeader.parse c5_rom_data =
      Except.ok ⟨1, 0, 0x40, 0x00, 0, 0, 0, [0, 0, 0, 0, 0]⟩ := by
  unfold InesHeader.parse
  rw [if_neg (by rw [c5_rom_data_length]; decide), if_neg (by decide)]
  rfl

/-- `Rom::new` accepts the C5 test image and stores mapper number 4. -/
theorem c5_rom_new_ok : ∃ r, Rom.new c5_rom_data = Except.ok r ∧ r.mapper = 4 := by
  unfold Rom.new
  rw [c5_header_parse]
  simp only []
  rw [if_neg (by rw [c5_rom_data_length]; decide), if_neg (by decide)]
  exact ⟨_, rfl, rfl⟩

/-- C5 (counterexample): a well-formed iNES image whose header encodes
mapper 4 is loaded successfully by `Rom::new` — with `mapper = 4` stored —
instead of failing with `UnsupportedMapper(4)`. -/
theorem c5_unsupported_mapper_counterexample :
    (∃ r, Rom.new c5_rom_data = Except.ok r ∧ r.mapper = 4) ∧
    is_unsupported_mapper_error (Rom.new c5_rom_data) = false := by
  obtain ⟨r, hr, hm⟩ := c5_rom_new_ok
  exact ⟨⟨r, hr, hm⟩, by rw [hr]; rfl⟩

/-- C5 (amended): `Rom::new` performs no mapper-number check — it never
returns `UnsupportedMapper` for any input, and it accepts the mapper-4
image, storing the mapper number; the only place unsupported mappers are
handled is `create_mapper`, which falls back to NROM (`Mapper000`) for
every mapper number other than 0 and 1 instead of erroring. -/
theorem c5_no_unsupported_mapper_check :
    (∀ data : List Nat, is_unsupported_mapper_error (Rom.new data) = false) ∧
    (∀ n p c : Nat, ¬(n = 0) → ¬(n = 1) →
      create_mapper n p c = CreatedMapper.m000 (Mapper000.new p c)) ∧
    (∃ r, Rom.new c5_rom_data = Except.ok r ∧ r.mapper = 4) := by
  refine ⟨?_, ?_, c5_rom_new_ok⟩
  · intro data
    unfold Rom.new
    rcases hp : InesHeader.parse data with e | header
    · unfold InesHeader.parse at hp
      split at hp
      · cases hp; rfl
      · split at hp
        · cases hp; rfl
        · cases hp
    · simp only []
      repeat' split
      all_goals rfl
  · intro n p c h0 h1
    unfold create_mapper
    rw [if_neg h0, if_neg h1]

/-- Witness for C5: `create_mapper` applied to mapper number 4 (which is
neither 0 nor 1) yields the NROM fallback. -/
theorem c5_no_unsupported_mapper_check_witness :
    ¬((4 : Nat) = 0) ∧ ¬((4 : Nat) = 1) ∧
    create_mapper 4 3 2 = CreatedMapper.m000 (Mapper000.new 3 2) :=
  ⟨by decide, by decide,
   c5_no_unsupported_mapper_check.2.1 4 3 2 (by decide) (by decide)⟩

theorem mmc1_shift_sequence (b1 b2 b3 b4 b5 : Nat)
    (h1 : b1 < 2) (h2 : b2 < 2) (h3 : b3 < 2) (h4 : b4 < 2) (h5 : b5 < 2) :
    ((((b1 <<< 4) >>> 1 ||| b2 <<< 4) >>> 1 ||| b3 <<< 4) >>> 1 ||| b4 <<< 4) >>> 1 |||
        b5 <<< 4 =
      b1 + 2 * b2 + 4 * b3 + 8 * b4 + 16 * b5 := by
  interval_cases b1 <;> interval_cases b2 <;> interval_cases b3 <;>
    interval_cases b4 <;> interval_cases b5 <;> decide

theorem mmc1_five_writes_commit_prg (m : Mapper001)
    (a1 a2 a3 a4 a5 v1 v2 v3 v4 v5 : Nat)
    (hsr : m.shift_register = 0) (hsc : m.shift_count = 0)
    (h1 : v1 &&& 0x80 = 0) (h2 : v2 &&& 0x80 = 0) (h3 : v3 &&& 0x80 = 0)
    (h4 : v4 &&& 0x80 = 0) (h5 : v5 &&& 0x80 = 0)
    (ha : 0xE000 ≤ a5) (hb : a5 ≤ 0xFFFF) :
    ((((m.write_register a1 v1).write_register a2 v2).write_register a3 v3).write_register
        a4 v4).write_register a5 v5 =
      { m with
          prg_bank := ((v1 % 2) + 2 * (v2 % 2) + 4 * (v3 % 2) + 8 * (v4 % 2) +
            16 * (v5 % 2)) &&& 0x0F
          prg_ram_enabled := decide
            (((v1 % 2) + 2 * (v2 % 2) + 4 * (v3 % 2) + 8 * (v4 % 2) +
              16 * (v5 % 2)) &&& 0x10 = 0)
          shift_register := 0
          shift_count := 0 } := by
  unfold Mapper001.write_register
  simp only [h1, h2, h3, h4, h5, hsr, hsc]
  norm_num
  rw [if_neg (by omega), if_neg (by omega), if_neg (by omega), if_pos (by omega)]
  rw [mmc1_shift_sequence (v1 % 2) (v2 % 2) (v3 % 2) (v4 % 2) (v5 % 2)
    (by omega) (by omega) (by omega) (by omega) (by omega)]
  simp

theorem mmc1_commit_fields (b1 b2 b3 b4 b5 : Nat)
    (h1 : b1 < 2) (h2 : b2 < 2) (h3 : b3 < 2) (h4 : b4 < 2) (h5 : b5 < 2) :
    (b1 + 2 * b2 + 4 * b3 + 8 * b4 + 16 * b5) &&& 0x0F = b1 + 2 * b2 + 4 * b3 + 8 * b4 ∧
    decide ((b1 + 2 * b2 + 4 * b3 + 8 * b4 + 16 * b5) &&& 0x10 = 0) = decide (b5 = 0) := by
  interval_cases b1 <;> interval_cases b2 <;> interval_cases b3 <;>
    interval_cases b4 <;> interval_cases b5 <;> exact ⟨by decide, by decide⟩

/-- C4 (amended): starting from a cleared shift register, five
`Mapper001::write_register` calls with bit 7 clear shift bit 0 of each
value into the register (first write lands in bit 0, fifth in bit 4); when
the fifth write targets `0xE000–0xFFFF` the low four accumulated bits are
committed to the PRG-bank register and bit 4 drives the PRG-RAM enable.
In particular, the writes `0b00000, 0b00001, 0b00010, 0b00100, 0b01000`
commit PRG bank `0b00010` (bank 2, the second value's bit 0 having landed
in bit 1), and `map_prg_read(0x8000)` then returns the PRG offset of bank
2, namely `2 * 0x4000 = 0x8000`. -/
theorem c4_mmc1_serial_loading :
    (∀ (m : Mapper001) (a1 a2 a3 a4 a5 v1 v2 v3 v4 v5 : Nat),
      m.shift_register = 0 → m.shift_count = 0 →
      v1 &&& 0x80 = 0 → v2 &&& 0x80 = 0 → v3 &&& 0x80 = 0 →
      v4 &&& 0x80 = 0 → v5 &&& 0x80 = 0 →
      0xE000 ≤ a5 → a5 ≤ 0xFFFF →
      (((((m.write_register a1 v1).write_register a2 v2).write_register
          a3 v3).write_register a4 v4).write_register a5 v5).prg_bank =
          (v1 % 2) + 2 * (v2 % 2) + 4 * (v3 % 2) + 8 * (v4 % 2) ∧
      (((((m.write_register a1 v1).write_register a2 v2).write_register
          a3 v3).write_register a4 v4).write_register a5 v5).prg_ram_enabled =
          decide (v5 % 2 = 0)) ∧
    (c4_mapper.prg_bank = 0b00010 ∧
     c4_mapper.map_prg_read 0x8000 = some (2 * 0x4000)) := by
  constructor
  · intro m a1 a2 a3 a4 a5 v1 v2 v3 v4 v5 hsr hsc h1 h2 h3 h4 h5 ha hb
    rw [mmc1_five_writes_commit_prg m a1 a2 a3 a4 a5 v1 v2 v3 v4 v5 hsr hsc
      h1 h2 h3 h4 h5 ha hb]
    have hm1 : v1 % 2 < 2 := by omega
    have hm2 : v2 % 2 < 2 := by omega
    have hm3 : v3 % 2 < 2 := by omega
    have hm4 : v4 % 2 < 2 := by omega
    have hm5 : v5 % 2 < 2 := by omega
    obtain ⟨hfa, hfb⟩ := mmc1_commit_fields (v1 % 2) (v2 % 2) (v3 % 2) (v4 % 2) (v5 % 2)
      hm1 hm2 hm3 hm4 hm5
    constructor
    · show (v1 % 2 + 2 * (v2 % 2) + 4 * (v3 % 2) + 8 * (v4 % 2) + 16 * (v5 % 2)) &&& 0x0F =
        v1 % 2 + 2 * (v2 % 2) + 4 * (v3 % 2) + 8 * (v4 % 2)
      exact hfa
    · show decide ((v1 % 2 + 2 * (v2 % 2) + 4 * (v3 % 2) + 8 * (v4 % 2) + 16 * (v5 % 2)) &&&
        0x10 = 0) = decide (v5 % 2 = 0)
      exact hfb
  · exact ⟨by decide, by decide⟩

/-- C4 (counterexample): the claim's five writes commit PRG bank `0b00010`
(= 2), not `0b01000` (= 8), and `map_prg_read(0x8000)` returns `0x8000`
(bank 2's offset), not `0x20000` (bank 8's offset). -/
theorem c4_mmc1_counterexample :
    c4_mapper.prg_bank = 0b00010 ∧
    ¬(c4_mapper.prg_bank = 0b01000) ∧
    c4_mapper.map_prg_read 0x8000 = some 0x8000 ∧
    ¬(c4_mapper.map_prg_read 0x8000 = some 0x20000) := by
  decide

/-- Witness for C4: the general commit statement instantiated at a fresh
MMC1 mapper and the claim's concrete write sequence. -/
theorem c4_mmc1_serial_loading_witness :
    ((Mapper001.new 16 2).shift_register = 0 ∧ (Mapper001.new 16 2).shift_count = 0) ∧
    c4_mapper.prg_bank =
      0b00000 % 2 + 2 * (0b00001 % 2) + 4 * (0b00010 % 2) + 8 * (0b00100 % 2) :=
  ⟨⟨rfl, rfl⟩,
   (c4_mmc1_serial_loading.1 (Mapper001.new 16 2) 0xE000 0xE000 0xE000 0xE000 0xE000
     0b00000 0b00001 0b00010 0b00100 0b01000 rfl rfl (by decide) (by decide) (by decide)
     (by decide) (by decide) (by decide) (by decide)).1⟩

theorem read_byte_lt_256 (m : NesMemory) (a : Nat) : m.read_byte a < 256 := by
  unfold NesMemory.read_byte
  simp only []
  repeat' split
  all_goals omega

set_option maxRecDepth 4096 in
theorem get_instruction_mode_ne_none (b : Nat) (hb : b < 256) (i : Instruction)
    (h : get_instruction b = some i) : i.addressing_mode ≠ AddressingMode.none := by
  have key : ∀ b, b < 256 →
      ((get_instruction b).all fun j => decide (j.addressing_mode ≠ AddressingMode.none)) =
        true := by decide
  have hk := key b hb
  rw [h] at hk
  simpa using hk

theorem get_operand_address_ok (cpu : Cpu) (i : Instruction)
    (h : i.addressing_mode ≠ AddressingMode.none) :
    ∃ a, cpu.get_operand_address i = Except.ok a := by
  unfold Cpu.get_operand_address
  cases hm : i.addressing_mode
  all_goals first
    | exact absurd hm h
    | exact ⟨_, rfl⟩
    | (simp only []; split
       · exact ⟨_, rfl⟩
       · exact ⟨_, rfl⟩)

@[simp] theorem cycles_lda (cpu : Cpu) (a : Nat) : (cpu.lda a).cycles = cpu.cycles := by
  simp [Cpu.lda]

@[simp] theorem cycles_ldx (cpu : Cpu) (a : Nat) : (cpu.ldx a).cycles = cpu.cycles := by
  simp [Cpu.ldx]

@[simp] theorem cycles_ldy (cpu : Cpu) (a : Nat) : (cpu.ldy a).cycles = cpu.cycles := by
  simp [Cpu.ldy]

@[simp] theorem cycles_sta (cpu : Cpu) (a : Nat) : (cpu.sta a).cycles = cpu.cycles := rfl

@[simp] theorem cycles_tax (cpu : Cpu) : (cpu.tax).cycles = cpu.cycles := by simp [Cpu.tax]

@[simp] theorem cycles_tay (cpu : Cpu) : (cpu.tay).cycles = cpu.cycles := by simp [Cpu.tay]

@[simp] theorem cycles_txa (cpu : Cpu) : (cpu.txa).cycles = cpu.cycles := by simp [Cpu.txa]

@[simp] theorem cycles_tya (cpu : Cpu) : (cpu.tya).cycles = cpu.cycles := by simp [Cpu.tya]

@[simp] theorem cycles_inx (cpu : Cpu) : (cpu.inx).cycles = cpu.cycles := by simp [Cpu.inx]

@[simp] theorem cycles_iny (cpu : Cpu) : (cpu.iny).cycles = cpu.cycles := by simp [Cpu.iny]

@[simp] theorem cycles_dex (cpu : Cpu) : (cpu.dex).cycles = cpu.cycles := by simp [Cpu.dex]

@[simp] theorem cycles_dey (cpu : Cpu) : (cpu.dey).cycles = cpu.cycles := by simp [Cpu.dey]

@[simp] theorem cycles_ora (cpu : Cpu) (a : Nat) : (cpu.ora a).cycles = cpu.cycles := by
  simp [Cpu.ora]

@[simp] theorem cycles_and (cpu : Cpu) (a : Nat) : (cpu.and a).cycles = cpu.cycles := by
  simp [Cpu.and]

@[simp] theorem cycles_eor (cpu : Cpu) (a : Nat) : (cpu.eor a).cycles = cpu.cycles := by
  simp [Cpu.eor]

@[simp] theorem cycles_adc (cpu : Cpu) (a : Nat) : (cpu.adc a).cycles = cpu.cycles := by
  simp [Cpu.adc]

@[simp] theorem cycles_sbc (cpu : Cpu) (a : Nat) : (cpu.sbc a).cycles = cpu.cycles := by
  simp [Cpu.sbc]

@[simp] theorem cycles_cmp (cpu : Cpu) (a : Nat) : (cpu.cmp a).cycles = cpu.cycles := by
  simp [Cpu.cmp]

@[simp] theorem cycles_cpx (cpu : Cpu) (a : Nat) : (cpu.cpx a).cycles = cpu.cycles := by
  simp [Cpu.cpx]

@[simp] theorem cycles_cpy (cpu : Cpu) (a : Nat) : (cpu.cpy a).cycles = cpu.cycles := by
  simp [Cpu.cpy]

@[simp] theorem cycles_bit (cpu : Cpu) (a : Nat) : (cpu.bit a).cycles = cpu.cycles := by
  simp [Cpu.bit]

@[simp] theorem cycles_asl (cpu : Cpu) (a : Nat) (mode : AddressingMode) :
    (cpu.asl a mode).cycles = cpu.cycles := by
  cases mode <;> simp [Cpu.asl]

@[simp] theorem cycles_lsr (cpu : Cpu) (a : Nat) (mode : AddressingMode) :
    (cpu.lsr a mode).cycles = cpu.cycles := by
  cases mode <;> simp [Cpu.lsr]

@[simp] theorem cycles_dec (cpu : Cpu) (a : Nat) : (cpu.dec a).cycles = cpu.cycles := by
  simp [Cpu.dec]

@[simp] theorem cycles_inc (cpu : Cpu) (a : Nat) : (cpu.inc a).cycles = cpu.cycles := by
  simp [Cpu.inc]

@[simp] theorem cycles_jmp (cpu : Cpu) (a : Nat) : (cpu.jmp a).cycles = cpu.cycles := rfl

@[simp] theorem cycles_jsr (cpu : Cpu) (a : Nat) : (cpu.jsr a).cycles = cpu.cycles := by
  simp [Cpu.jsr]

@[simp] theorem cycles_rts (cpu : Cpu) : (cpu.rts).cycles = cpu.cycles := rfl

@[simp] theorem cycles_rti (cpu : Cpu) : (cpu.rti).cycles = cpu.cycles := rfl

@[simp] theorem cycles_nop (cpu : Cpu) : (cpu.nop).cycles = cpu.cycles := rfl

theorem branch_cycle_delta_eq_zero (op : Nat) (cpu : Cpu)
    (h1 : ¬(op = 0x10)) (h2 : ¬(op = 0x30)) (h3 : ¬(op = 0x50)) (h4 : ¬(op = 0x70))
    (h5 : ¬(op = 0x90)) (h6 : ¬(op = 0xB0)) (h7 : ¬(op = 0xD0)) (h8 : ¬(op = 0xF0)) :
    branch_cycle_delta op cpu = 0 := by
  unfold branch_cycle_delta
  rw [if_neg h1, if_neg h2, if_neg h3, if_neg h4, if_neg h5, if_neg h6, if_neg h7, if_neg h8]

set_option maxHeartbeats 1000000 in
theorem execute_opcode_cycles (cpu : Cpu) (op addr : Nat) (mode : AddressingMode) :
    (cpu.execute_opcode op addr mode).cycles = cpu.cycles + branch_cycle_delta op cpu := by
  unfold Cpu.execute_opcode
  by_cases h1 : op = 0xA9 ∨ op = 0xA5 ∨ op = 0xB5 ∨ op = 0xAD ∨ op = 0xBD ∨       op = 0xB9 ∨ op = 0xA1 ∨ op = 0xB1
  · rw [if_pos h1, branch_cycle_delta_eq_zero op cpu (by omega) (by omega) (by omega) (by omega) (by omega) (by omega) (by omega) (by omega)]
    simp
  rw [if_neg h1]
  by_cases h2 : op = 0x09 ∨ op = 0x05 ∨ op = 0x15 ∨ op = 0x0D ∨ op = 0x1D ∨       op = 0x19 ∨ op = 0x01 ∨ op = 0x11
  · rw [if_pos h2, branch_cycle_delta_eq_zero op cpu (by omega) (by omega) (by omega) (by omega) (by omega) (by omega) (by omega) (by omega)]
    simp
  rw [if_neg h2]
  by_cases h3 : op = 0xC9 ∨ op = 0xC5 ∨ op = 0xD5 ∨ op = 0xCD ∨ op = 0xDD ∨       op = 0xD9 ∨ op = 0xC1 ∨ op = 0xD1
  · rw [if_pos h3, branch_cycle_delta_eq_zero op cpu (by omega) (by omega) (by omega) (by omega) (by omega) (by omega) (by omega) (by omega)]
    simp
  rw [if_neg h3]
  by_cases h4 : op = 0xE0 ∨ op = 0xE4 ∨ op = 0xEC
  · rw [if_pos h4, branch_cycle_delta_eq_zero op cpu (by omega) (by omega) (by omega) (by omega) (by omega) (by omega) (by omega) (by omega)]
    simp
  rw [if_neg h4]
  by_cases h5 : op = 0xC0 ∨ op = 0xC4 ∨ op = 0xCC
  · rw [if_pos h5, branch_cycle_delta_eq_zero op cpu (by omega) (by omega) (by omega) (by omega) (by omega) (by omega) (by omega) (by omega)]
    simp
  rw [if_neg h5]
  by_cases h6 : op = 0xAA
  · rw [if_pos h6, branch_cycle_delta_eq_zero op cpu (by omega) (by omega) (by omega) (by omega) (by omega) (by omega) (by omega) (by omega)]
    simp
  rw [if_neg h6]
  by_cases h7 : op = 0xA8
  · rw [if_pos h7, branch_cycle_delta_eq_zero op cpu (by omega) (by omega) (by omega) (by omega) (by omega) (by omega) (by omega) (by omega)]
    simp
  rw [if_neg h7]
  by_cases h8 : op = 0x8A
  · rw [if_pos h8, branch_cycle_delta_eq_zero op cpu (by omega) (by omega) (by omega) (by omega) (by omega) (by omega) (by omega) (by omega)]
    simp
  rw [if_neg h8]
  by_cases h9 : op = 0x98
  · rw [if_pos h9, branch_cycle_delta_eq_zero op cpu (by omega) (by omega) (by omega) (by omega) (by omega) (by omega) (by omega) (by omega)]
    simp
  rw [if_neg h9]
  by_cases h10 : op = 0xE8
  · rw [if_pos h10, branch_cycle_delta_eq_zero op cpu (by omega) (by omega) (by omega) (by omega) (by omega) (by omega) (by omega) (by omega)]
    simp
  rw [if_neg h10]
  by_cases h11 : op = 0xC8
  · rw [if_pos h11, branch_cycle_delta_eq_zero op cpu (by omega) (by omega) (by omega) (by omega) (by omega) (by omega) (by omega) (by omega)]
    simp
  rw [if_neg h11]
  by_cases h12 : op = 0xCA
  · rw [if_pos h12, branch_cycle_delta_eq_zero op cpu (by omega) (by omega) (by omega) (by omega) (by omega) (by omega) (by omega) (by omega)]
    simp
  rw [if_neg h12]
  by_cases h13 : op = 0x88
  · rw [if_pos h13, branch_cycle_delta_eq_zero op cpu (by omega) (by omega) (by omega) (by omega) (by omega) (by omega) (by omega) (by omega)]
    simp
  rw [if_neg h13]
  by_cases h14 : op = 0x85 ∨ op = 0x95 ∨ op = 0x8D ∨ op = 0x9D ∨ op = 0x99 ∨       op = 0x81 ∨ op = 0x91
  · rw [if_pos h14, branch_cycle_delta_eq_zero op cpu (by omega) (by omega) (by omega) (by omega) (by omega) (by omega) (by omega) (by omega)]
    simp
  rw [if_neg h14]
  by_cases h15 : op = 0xA2 ∨ op = 0xA6 ∨ op = 0xAE ∨ op = 0xB6 ∨ op = 0xBE
  · rw [if_pos h15, branch_cycle_delta_eq_zero op cpu (by omega) (by omega) (by omega) (by omega) (by omega) (by omega) (by omega) (by omega)]
    simp
  rw [if_neg h15]
  by_cases h16 : op = 0xA0 ∨ op = 0xA4 ∨ op = 0xB4 ∨ op = 0xAC ∨ op = 0xBC
  · rw [if_pos h16, branch_cycle_delta_eq_zero op cpu (by omega) (by omega) (by omega) (by omega) (by omega) (by omega) (by omega) (by omega)]
    simp
  rw [if_neg h16]
  by_cases h17 : op = 0x20
  · rw [if_pos h17, branch_cycle_delta_eq_zero op cpu (by omega) (by omega) (by omega) (by omega) (by omega) (by omega) (by omega) (by omega)]
    simp
  rw [if_neg h17]
  by_cases h18 : op = 0x60
  · rw [if_pos h18, branch_cycle_delta_eq_zero op cpu (by omega) (by omega) (by omega) (by omega) (by omega) (by omega) (by omega) (by omega)]
    simp
  rw [if_neg h18]
  by_cases h19 : op = 0x4C
  · rw [if_pos h19, branch_cycle_delta_eq_zero op cpu (by omega) (by omega) (by omega) (by omega) (by omega) (by omega) (by omega) (by omega)]
    simp
  rw [if_neg h19]
  by_cases h20 : op = 0x10
  · rw [if_pos h20, cycles_branch]
    subst h20
    simp [branch_cycle_delta]
  rw [if_neg h20]
  by_cases h21 : op = 0x30
  · rw [if_pos h21, cycles_branch]
    subst h21
    simp [branch_cycle_delta]
  rw [if_neg h21]
  by_cases h22 : op = 0x50
  · rw [if_pos h22, cycles_branch]
    subst h22
    simp [branch_cycle_delta]
  rw [if_neg h22]
  by_cases h23 : op = 0x70
  · rw [if_pos h23, cycles_branch]
    subst h23
    simp [branch_cycle_delta]
  rw [if_neg h23]
  by_cases h24 : op = 0x90
  · rw [if_pos h24, cycles_branch]
    subst h24
    simp [branch_cycle_delta]
  rw [if_neg h24]
  by_cases h25 : op = 0xB0
  · rw [if_pos h25, cycles_branch]
    subst h25
    simp [branch_cycle_delta]
  rw [if_neg h25]
  by_cases h26 : op = 0xD0
  · rw [if_pos h26, cycles_branch]
    subst h26
    simp [branch_cycle_delta]
  rw [if_neg h26]
  by_cases h27 : op = 0xF0
  · rw [if_pos h27, cycles_branch]
    subst h27
    simp [branch_cycle_delta]
  rw [if_neg h27]
  by_cases h28 : op = 0x24 ∨ op = 0x2C
  · rw [if_pos h28, branch_cycle_delta_eq_zero op cpu (by omega) (by omega) (by omega) (by omega) (by omega) (by omega) (by omega) (by omega)]
    simp
  rw [if_neg h28]
  by_cases h29 : op = 0x69 ∨ op = 0x65 ∨ op = 0x75 ∨ op = 0x6D ∨ op = 0x7D ∨       op = 0x79 ∨ op = 0x61 ∨ op = 0x71
  · rw [if_pos h29, branch_cycle_delta_eq_zero op cpu (by omega) (by omega) (by omega) (by omega) (by omega) (by omega) (by omega) (by omega)]
    simp
  rw [if_neg h29]
  by_cases h30 : op = 0xE9 ∨ op = 0xE5 ∨ op = 0xF5 ∨ op = 0xED ∨ op = 0xFD ∨       op = 0xF9 ∨ op = 0xE1 ∨ op = 0xF1
  · rw [if_pos h30, branch_cycle_delta_eq_zero op cpu (by omega) (by omega) (by omega) (by omega) (by omega) (by omega) (by omega) (by omega)]
    simp
  rw [if_neg h30]
  by_cases h31 : op = 0x4A ∨ op = 0x46 ∨ op = 0x56 ∨ op = 0x4E ∨ op = 0x5E
  · rw [if_pos h31, branch_cycle_delta_eq_zero op cpu (by omega) (by omega) (by omega) (by omega) (by omega) (by omega) (by omega) (by omega)]
    simp
  rw [if_neg h31]
  by_cases h32 : op = 0xC6 ∨ op = 0xD6 ∨ op = 0xCE ∨ op = 0xDE
  · rw [if_pos h32, branch_cycle_delta_eq_zero op cpu (by omega) (by omega) (by omega) (by omega) (by omega) (by omega) (by omega) (by omega)]
    simp
  rw [if_neg h32]
  by_cases h33 : op = 0xE6 ∨ op = 0xF6 ∨ op = 0xEE ∨ op = 0xFE
  · rw [if_pos h33, branch_cycle_delta_eq_zero op cpu (by omega) (by omega) (by omega) (by omega) (by omega) (by omega) (by omega) (by omega)]
    simp
  rw [if_neg h33]
  by_cases h34 : op = 0x29 ∨ op = 0x25 ∨ op = 0x35 ∨ op = 0x2D ∨ op = 0x3D ∨       op = 0x39 ∨ op = 0x21 ∨ op = 0x31
  · rw [if_pos h34, branch_cycle_delta_eq_zero op cpu (by omega) (by omega) (by omega) (by omega) (by omega) (by omega) (by omega) (by omega)]
    simp
  rw [if_neg h34]
  by_cases h35 : op = 0x49 ∨ op = 0x45 ∨ op = 0x55 ∨ op = 0x4D ∨ op = 0x5D ∨       op = 0x59 ∨ op = 0x41 ∨ op = 0x51
  · rw [if_pos h35, branch_cycle_delta_eq_zero op cpu (by omega) (by omega) (by omega) (by omega) (by omega) (by omega) (by omega) (by omega)]
    simp
  rw [if_neg h35]
  by_cases h36 : op = 0x0A ∨ op = 0x06 ∨ op = 0x16 ∨ op = 0x0E ∨ op = 0x1E
  · rw [if_pos h36, branch_cycle_delta_eq_zero op cpu (by omega) (by omega) (by omega) (by omega) (by omega) (by omega) (by omega) (by omega)]
    simp
  rw [if_neg h36]
  by_cases h37 : op = 0x18
  · rw [if_pos h37, branch_cycle_delta_eq_zero op cpu (by omega) (by omega) (by omega) (by omega) (by omega) (by omega) (by omega) (by omega)]
    simp
  rw [if_neg h37]
  by_cases h38 : op = 0x38
  · rw [if_pos h38, branch_cycle_delta_eq_zero op cpu (by omega) (by omega) (by omega) (by omega) (by omega) (by omega) (by omega) (by omega)]
    simp
  rw [if_neg h38]
  by_cases h39 : op = 0x40
  · rw [if_pos h39, branch_cycle_delta_eq_zero op cpu (by omega) (by omega) (by omega) (by omega) (by omega) (by omega) (by omega) (by omega)]
    simp
  rw [if_neg h39]
  by_cases h40 : op = 0xEA
  · rw [if_pos h40, branch_cycle_delta_eq_zero op cpu (by omega) (by omega) (by omega) (by omega) (by omega) (by omega) (by omega) (by omega)]
    simp
  rw [if_neg h40]
  rw [branch_cycle_delta_eq_zero op cpu (by omega) (by omega) (by omega) (by omega) (by omega) (by omega) (by omega) (by omega)]
  simp

set_option maxRecDepth 8192 in
/-- C3 (amended): for every instruction other than BRK that `Cpu::step`
executes, the cycle counter increases by exactly the instruction's base
cycles plus `branch_cycle_delta` — one extra cycle when а branch is taken
and one more when `page_crossed(old_pc, new_pc)` holds for the operand-byte
address and the branch target; no cycle is ever added for
AbsoluteX/AbsoluteY/IndirectY accesses that cross a page (their delta is
0), and BRK stops execution without adding its base cycles.  In particular,
executing `F0 04` (BEQ +4) at `PC = 0x80FE` with `Z = 1` ends at
`PC = 0x8104` with the cycle count increased by `2 + 2` (base 2, taken +1,
page-crossed +1). -/
theorem c3_cycle_accounting :
    (∀ (cpu : Cpu) (instr : Instruction),
      get_instruction (cpu.read_byte cpu.pc) = some instr →
      ¬(instr.opcode = 0x00) →
      ∃ cpu', Cpu.step cpu = Except.ok (true, cpu') ∧
        cpu'.cycles = cpu.cycles + instr.cycles +
          branch_cycle_delta instr.opcode { cpu with pc := (cpu.pc + 1) % 65536 }) ∧
    (∃ cpu', Cpu.step c3_beq_cpu = Except.ok (true, cpu') ∧
       cpu'.pc = 0x8104 ∧ cpu'.cycles = c3_beq_cpu.cycles + 2 + 2) := by
  constructor
  · intro cpu instr h h0
    have hmode : instr.addressing_mode ≠ AddressingMode.none :=
      get_instruction_mode_ne_none _ (read_byte_lt_256 _ _) _ h
    obtain ⟨a, ha⟩ :=
      get_operand_address_ok { cpu with pc := (cpu.pc + 1) % 65536 } instr hmode
    unfold Cpu.step
    simp only []
    rw [h]
    simp only []
    rw [ha]
    simp only []
    rw [if_neg h0]
    refine ⟨_, rfl, ?_⟩
    have hexec := execute_opcode_cycles { cpu with pc := (cpu.pc + 1) % 65536 }
      instr.opcode a instr.addressing_mode
    simp only []
    split
    · simp only [hexec]
      omega
    · simp only [hexec]
      omega
  · exact ⟨_, rfl, rfl, rfl⟩

set_option maxRecDepth 8192 in
/-- C3 (counterexample): `BD FF 30` (LDA `$30FF,X`) with `X = 1` has an
effective address (`0x3100`) on a different page than its base (`0x30FF`),
yet `Cpu::step` increases the cycle counter by exactly the base 4 cycles —
not by 5 as the claimed indexed page-cross penalty would require. -/
theorem c3_no_indexed_page_cross_penalty :
    page_crossed (c3_absx_cpu.read_word 0x0001)
      ((c3_absx_cpu.read_word 0x0001 + c3_absx_cpu.x) % 65536) = true ∧
    (∃ cpu', Cpu.step c3_absx_cpu = Except.ok (true, cpu') ∧
       cpu'.cycles = c3_absx_cpu.cycles + 4 ∧
       ¬(cpu'.cycles = c3_absx_cpu.cycles + 4 + 1)) :=
  ⟨rfl, ⟨_, rfl, rfl, by decide⟩⟩

set_option maxRecDepth 8192 in
/-- Witness for C3: the general cycle statement instantiated at the BEQ
scenario CPU, whose byte at `PC` decodes to the BEQ entry. -/
theorem c3_cycle_accounting_witness :
    get_instruction (c3_beq_cpu.read_byte c3_beq_cpu.pc) =
      some ⟨"BEQ", 0xF0, AddressingMode.relative, 2, 2⟩ ∧
    ¬((0xF0 : Nat) = 0x00) ∧
    (∃ cpu', Cpu.step c3_beq_cpu = Except.ok (true, cpu') ∧
       cpu'.cycles = c3_beq_cpu.cycles + 2 +
         branch_cycle_delta 0xF0 { c3_beq_cpu with pc := (c3_beq_cpu.pc + 1) % 65536 }) :=
  ⟨rfl, by decide,
   c3_cycle_accounting.1 c3_beq_cpu ⟨"BEQ", 0xF0, AddressingMode.relative, 2, 2⟩ rfl
     (by decide)⟩
